import Mathlib

/-!
# express-api-template: token codec and authentication middleware

A shallow embedding of `src/utilities/index.js` (`verifyToken`, `generateToken`,
`generateNewTokensIfExpired`, `validateObject`), of `src/middlewares/index.js`
(`extractUserFromToken`, `validateHTTPBody`) and of the login route of
`src/http-handlers/user.js`, together with the parts of the libraries they call
(`jsonwebtoken`, `validator`, `bcrypt`, `Joi`, the Mongoose `User` model) that
decide their results.

Conventions of the embedding:

* JavaScript values are the type `JsVal`.  Numbers are integers plus `NaN`
  (fractions play no part in any branch of the code).  Sums of numbers are exact:
  this is what the code computes as long as a sum stays below 2^53, beyond which
  the doubles of the code round; no statement of a claim depends on a sum beyond
  that bound.
* A signed token is a string.  Cryptography is symbolic: the string that is the
  compact serialisation of a JWS signed with an HMAC algorithm (HS256, HS384 or
  HS512, the algorithms that `jwt.verify` accepts when it is called with a secret
  and without the option `algorithms`) is the term `JsVal.jws secret payload`,
  every other string is a `JsVal.str`.  A signature checks under a key exactly
  when the token was signed with that key.  `jwt.sign` issues HS256 only, so for
  an issued token the term determines the string.  Strings that `jwt.verify`
  refuses whenever a key is configured (malformed strings, unsecured tokens,
  tokens under an algorithm that is not an HMAC) are all `JsVal.str`.
* `async` functions are functions into `Except JsErr _`: `.error e` is a
  rejected promise / a raised exception, `.ok v` a fulfilled one.
* `Date.now()` (in seconds) is the explicit argument `now`.
-/

namespace ExpressApiTemplate

/-! ## JavaScript values -/

/-- JavaScript values. `jws secret payload` is the string value that serialises a
JWS whose decoded payload is `payload`, signed with `secret` under an HMAC
algorithm (HS256, HS384 or HS512). -/
inductive JsVal where
  | undefined
  | null
  | bool (b : Bool)
  | num (n : Int)
  | nan
  | str (s : String)
  | jws (secret : String) (payload : JsVal)
  | arr (xs : List JsVal)
  | obj (fields : List (String × JsVal))

/-- The results of the `typeof` operator. -/
inductive JsType where
  | undefined
  | object
  | boolean
  | number
  | string
  deriving DecidableEq, Repr

/-- Errors that can be raised. The first six are the `Error` objects exported by
`src/utilities/index.js`; the others are raised inline or by a library. -/
inductive JsErr where
  | ErrGenerateTokenPayloadNotSpecified
  | ErrGenerateTokenPayloadInvalidDataType
  | ErrorGenerateTokenTypeNotSpecified
  | ErrorGenerateTokenTypeInvalidDataType
  | ErrorGenerateTokenTypeInvalidValue
  | ErrGenerateNewTokensIfExpiredPayloadNotSpecified
  | error (message : String)
  | typeError (message : String)
  | jsonWebTokenError (message : String)
  | notBeforeError
  | tokenExpiredError
  | storeError
  deriving DecidableEq, Repr

namespace JsVal

/-- The operator `typeof v`. -/
def typeOf : JsVal → JsType
  | .undefined => .undefined
  | .null => .object
  | .bool _ => .boolean
  | .num _ => .number
  | .nan => .number
  | .str _ => .string
  | .jws _ _ => .string
  | .arr _ => .object
  | .obj _ => .object

/-- Truthiness: `!v` is `!(truthy v)`. A serialised JWS is a non-empty string. -/
def truthy : JsVal → Bool
  | .undefined => false
  | .null => false
  | .bool b => b
  | .num n => n != 0
  | .nan => false
  | .str s => s != ""
  | .jws _ _ => true
  | .arr _ => true
  | .obj _ => true

/-- Strict equality with a string literal: `v === s`. A serialised JWS contains
dots and is never one of the literals the code compares with. -/
def strictEqStr : JsVal → String → Bool
  | .str t, s => t == s
  | _, _ => false

/-- Strict equality with null: `v === null`. -/
def isNull : JsVal → Bool
  | .null => true
  | _ => false

/-- Loose equality with null: `v == null`. -/
def looseEqNull : JsVal → Bool
  | .null => true
  | .undefined => true
  | _ => false

/-- The function `Array.isArray(v)`. -/
def isArray : JsVal → Bool
  | .arr _ => true
  | _ => false

mutual
/-- Whether an array element contributes the empty string to `Array.prototype.join`. -/
def joinsAsEmpty : JsVal → Bool
  | .undefined => true
  | .null => true
  | .str s => s == ""
  | .arr xs => joinIsEmpty xs
  | _ => false
/-- Whether `xs.join(',')` is the empty string. -/
def joinIsEmpty : List JsVal → Bool
  | [] => true
  | [x] => joinsAsEmpty x
  | _ :: _ :: _ => false
end

/-- Loose equality with the empty string: `v == ''`. Booleans and numbers compare
as numbers with `0`, arrays through their `join(',')`, plain objects never. -/
def looseEqEmptyStr : JsVal → Bool
  | .undefined => false
  | .null => false
  | .bool b => !b
  | .num n => n == 0
  | .nan => false
  | .str s => s == ""
  | .jws _ _ => false
  | .arr xs => joinIsEmpty xs
  | .obj _ => false

/-- Own property `k` of an object's field list, `undefined` when absent. -/
def getOwn : List (String × JsVal) → String → JsVal
  | [], _ => .undefined
  | (k, v) :: fs, key => if k = key then v else getOwn fs key

/-- Whether the field list has the own key `k`. -/
def hasOwn : List (String × JsVal) → String → Bool
  | [], _ => false
  | (k, _) :: fs, key => if k = key then true else hasOwn fs key

/-- The assignment `o[k] = v` on a field list: overwrite in place, else append. -/
def setOwn : List (String × JsVal) → String → JsVal → List (String × JsVal)
  | [], key, v => [(key, v)]
  | (k, w) :: fs, key, v => if k = key then (k, v) :: fs else (k, w) :: setOwn fs key v

/-- Property read `v.k` for the named (non built-in) properties the code reads:
a `TypeError` on `undefined` and `null`, the own field of an object, `undefined` on
every other value. -/
def getProp : JsVal → String → Except JsErr JsVal
  | .undefined, k => .error (.typeError ("Cannot read properties of undefined (reading '" ++ k ++ "')"))
  | .null, k => .error (.typeError ("Cannot read properties of null (reading '" ++ k ++ "')"))
  | .obj fs, k => .ok (getOwn fs k)
  | _, _ => .ok .undefined

/-- The fields of a plain object (no fields for any other value). -/
def ownFields : JsVal → List (String × JsVal)
  | .obj fs => fs
  | _ => []

mutual
/-- The value `JSON.parse(JSON.stringify(v))` for a value that is serialised:
`NaN` becomes `null`, and inside containers see `jsonArr` and `jsonObj`. -/
def json : JsVal → JsVal
  | .nan => .null
  | .arr xs => .arr (jsonArr xs)
  | .obj fs => .obj (jsonObj fs)
  | v => v
/-- JSON round trip of array elements: `undefined` becomes `null`. -/
def jsonArr : List JsVal → List JsVal
  | [] => []
  | .undefined :: xs => .null :: jsonArr xs
  | x :: xs => json x :: jsonArr xs
/-- JSON round trip of object fields: fields holding `undefined` are dropped. -/
def jsonObj : List (String × JsVal) → List (String × JsVal)
  | [] => []
  | (_, .undefined) :: fs => jsonObj fs
  | (k, v) :: fs => (k, json v) :: jsonObj fs
end

end JsVal

open JsVal

/-! ## The library `jsonwebtoken` (`jwt.sign`, `jwt.verify`) and `validator.isEmpty` -/

/-- The predicate `isNumber` of jsonwebtoken's payload validation: `typeof v === 'number'`. -/
def isNumber (v : JsVal) : Bool := v.typeOf == .number

/-- The payload validation of `jwt.sign` (`validatePayload`): walking the keys in
order, each registered claim `iat`, `exp`, `nbf` must hold a number. -/
def validatePayload : List (String × JsVal) → Except JsErr Unit
  | [] => .ok ()
  | (k, v) :: fs =>
    if (k = "iat" ∨ k = "exp" ∨ k = "nbf") ∧ isNumber v = false then
      .error (.error ("\"" ++ k ++ "\" should be a number of seconds"))
    else validatePayload fs

/-- The time stamp `payload.iat || Math.floor(Date.now() / 1000)` of `jwt.sign`
(on a validated payload `iat` is a number when present). -/
def signTimestamp (now : Nat) (payload : List (String × JsVal)) : Int :=
  match getOwn payload "iat" with
  | .num n => if n != 0 then n else now
  | _ => now

/-- The call `jwt.sign(payload, secretOrPrivateKey, { expiresIn })` (`expiresIn`
in seconds, `none` when no options are passed) on a plain-object payload, the only
kind `generateToken` lets through. The key must have a value; the payload is
validated and copied; `exp` in the payload excludes the option `expiresIn`; `iat`
is set to the time stamp; `exp` is set to the time stamp plus `expiresIn` (an
exact sum, see the conventions); the result is the signed (HS256) serialisation of
the JSON form of the claims. -/
def jwtSign (now : Nat) (payload : List (String × JsVal)) (secretOrPrivateKey : String)
    (expiresIn : Option Nat) : Except JsErr JsVal :=
  if secretOrPrivateKey = "" then
    .error (.error "secretOrPrivateKey must have a value")
  else
    match validatePayload payload with
    | .error e => .error e
    | .ok () =>
      if (getOwn payload "exp").typeOf != .undefined ∧ expiresIn.isSome then
        .error (.error "Bad \"options.expiresIn\" option the payload already has an \"exp\" property.")
      else
        let timestamp := signTimestamp now payload
        let withIat := setOwn payload "iat" (.num timestamp)
        let claims :=
          match expiresIn with
          | some span => setOwn withIat "exp" (.num (timestamp + span))
          | none => withIat
        .ok (.jws secretOrPrivateKey (.obj (jsonObj claims)))

/-- The `nbf` check of `jwt.verify`: when the claim is defined it must be a number
and must not lie after the clock. -/
def checkNotBefore (now : Nat) (nbf : JsVal) : Except JsErr Unit :=
  match nbf with
  | .undefined => .ok ()
  | .num n => if n > (now : Int) then .error .notBeforeError else .ok ()
  | .nan => .ok ()
  | _ => .error (.jsonWebTokenError "invalid nbf value")

/-- The `exp` check of `jwt.verify`: when the claim is defined it must be a number
and the clock must not have reached it. -/
def checkExpiry (now : Nat) (exp : JsVal) : Except JsErr Unit :=
  match exp with
  | .undefined => .ok ()
  | .num n => if (now : Int) ≥ n then .error .tokenExpiredError else .ok ()
  | .nan => .ok ()
  | _ => .error (.jsonWebTokenError "invalid exp value")

/-- The claim `k` as `jwt.verify` reads it from a decoded payload (an object, or a
string for a non-JSON payload, on which the claim is `undefined`). -/
def claimOf (payload : JsVal) (k : String) : JsVal :=
  match payload with
  | .obj fs => getOwn fs k
  | _ => .undefined

/-- The call `jwt.verify(jwtString, secretOrPublicKey)` with a secret and without
options: the token must be given, be a string, have three well-formed parts, be
signed with one of the HMAC algorithms, carry a signature that checks under the
key, be active (`nbf`) and not expired (`exp`); the decoded payload is returned.
A string that is not an HMAC-signed JWS (`JsVal.str`) is refused. -/
def jwtVerify (now : Nat) (jwtString : JsVal) (secretOrPublicKey : String) :
    Except JsErr JsVal :=
  if jwtString.truthy = false then
    .error (.jsonWebTokenError "jwt must be provided")
  else
    match jwtString with
    | .jws secret payload =>
      if secretOrPublicKey = "" then
        .error (.jsonWebTokenError "secret or public key must be provided")
      else if secret ≠ secretOrPublicKey then
        .error (.jsonWebTokenError "invalid signature")
      else
        match checkNotBefore now (claimOf payload "nbf") with
        | .error e => .error e
        | .ok () =>
          match checkExpiry now (claimOf payload "exp") with
          | .error e => .error e
          | .ok () => .ok payload
    | .str _ => .error (.jsonWebTokenError "jwt malformed")
    | _ => .error (.jsonWebTokenError "jwt must be a string")

/-- The call `validator.isEmpty(str)`: a `TypeError` unless `str` is a string, then
whether its length is zero. -/
def validatorIsEmpty (str : JsVal) : Except JsErr Bool :=
  match str with
  | .str s => .ok (s == "")
  | .jws _ _ => .ok false
  | _ => .error (.typeError "Expected a string")

/-! ## `src/utilities/index.js` -/

/-- The configuration read from `process.env`; `SECRET_TOKEN_KEY` is the HMAC
secret, the empty string standing for a key that is not set. -/
structure Env where
  SECRET_TOKEN_KEY : String
  deriving DecidableEq, Repr

/-- The `try` block of `verifyToken`. -/
def verifyTokenTry (env : Env) (now : Nat) (token : JsVal) : Except JsErr JsVal :=
  match validatorIsEmpty token with
  | .error e => .error e
  | .ok empty =>
    if empty || !token.truthy || token.strictEqStr "" then
      .error (.error "ERROR: 1st parameter 'token' not specified")
    else
      match jwtVerify now token env.SECRET_TOKEN_KEY with
      | .error e => .error e
      | .ok extractedData =>
        if !extractedData.truthy then
          .error (.error "ERROR: Token invalid!")
        else .ok extractedData

/-- The function `verifyToken(token)`: the `try` block, with `catch (e) { return null }`. -/
def verifyToken (env : Env) (now : Nat) (token : JsVal) : Except JsErr JsVal :=
  match verifyTokenTry env now token with
  | .ok extractedData => .ok extractedData
  | .error _ => .ok .null

/-- The function `generateToken(payload, type)`. -/
def generateToken (env : Env) (now : Nat) (payload type : JsVal) : Except JsErr JsVal :=
  if !payload.truthy || payload.typeOf == .undefined then
    .error .ErrGenerateTokenPayloadNotSpecified
  else if !type.truthy || type.strictEqStr "" then
    .error .ErrorGenerateTokenTypeNotSpecified
  else if payload.typeOf != .object || payload.isArray || payload.isNull then
    .error .ErrGenerateTokenPayloadInvalidDataType
  else if type.typeOf != .string then
    .error .ErrorGenerateTokenTypeInvalidDataType
  else if type.strictEqStr "accessToken" then
    jwtSign now payload.ownFields env.SECRET_TOKEN_KEY (some (60 * 60 * 9999))
  else if type.strictEqStr "refreshToken" then
    jwtSign now payload.ownFields env.SECRET_TOKEN_KEY none
  else
    .error .ErrorGenerateTokenTypeInvalidValue

/-- The object `{ newRefreshToken, newAccessToken }`. -/
structure NewTokens where
  newRefreshToken : JsVal
  newAccessToken : JsVal

/-- The function `generateNewTokensIfExpired(payload)`. -/
def generateNewTokensIfExpired (env : Env) (now : Nat) (payload : JsVal) :
    Except JsErr NewTokens :=
  if !payload.truthy || payload.looseEqNull then
    .error .ErrGenerateNewTokensIfExpiredPayloadNotSpecified
  else
    match generateToken env now payload (.str "refreshToken") with
    | .error e => .error e
    | .ok newRefreshToken =>
      match generateToken env now payload (.str "accessToken") with
      | .error e => .error e
      | .ok newAccessToken => .ok { newRefreshToken, newAccessToken }

/-! ## `src/constants/index.js` and the Mongoose model `User` (`src/models/user.js`) -/

/-- The constant `httpStatus.STATUS_OK`. -/
def STATUS_OK : Nat := 200

/-- The constant `httpStatus.STATUS_UNAUTHORIZED`. -/
def STATUS_UNAUTHORIZED : Nat := 401

/-- The constant `httpStatus.STATUS_SERVER_ERROR`. -/
def STATUS_SERVER_ERROR : Nat := 500

/-- A document of the collection `users`: `_id` (as its hexadecimal string) and the
paths of `UserSchema` (time stamps are left out). -/
structure UserDoc where
  id : String
  firstname : JsVal
  lastname : JsVal
  username : JsVal
  password : JsVal
  refreshToken : JsVal

/-- The database behind the model `User`: its documents, and whether it answers
(when it does not, every call on the model rejects). -/
structure Store where
  users : List UserDoc
  available : Bool

/-- Assignment of one path of an update document to a user document. The schema is
strict: a path that `UserSchema` does not declare is dropped. -/
def UserDoc.setPath (doc : UserDoc) (path : String) (v : JsVal) : UserDoc :=
  if path = "firstname" then { doc with firstname := v }
  else if path = "lastname" then { doc with lastname := v }
  else if path = "username" then { doc with username := v }
  else if path = "password" then { doc with password := v }
  else if path = "refreshToken" then { doc with refreshToken := v }
  else doc

/-- Application of an update document, path by path. -/
def UserDoc.applyUpdate (doc : UserDoc) : List (String × JsVal) → UserDoc
  | [] => doc
  | (path, v) :: rest => UserDoc.applyUpdate (doc.setPath path v) rest

/-- Whether a string is the 24-digit hexadecimal form of an ObjectId. -/
def isObjectIdString (s : String) : Bool :=
  s.length == 24 && s.all (fun c => c.isDigit || ('a' ≤ c && c ≤ 'f') || ('A' ≤ c && c ≤ 'F'))

/-- A hexadecimal digit, in lower case. -/
def hexDigit (n : Nat) : Char :=
  if n < 10 then Char.ofNat (48 + n) else Char.ofNat (87 + n)

/-- The hexadecimal form of the ObjectId whose twelve bytes are the character codes
(modulo 256) of a string. -/
def hexOfString (s : String) : String :=
  String.mk (s.toList.flatMap (fun c => [hexDigit (c.toNat / 16 % 16), hexDigit (c.toNat % 16)]))

/-- The cast of the filter value of `{ _id: v }`: `undefined` and `null` select no
document (`none`); the 24-digit hexadecimal form of an ObjectId selects that id; a
string of twelve characters is read as the twelve bytes of an ObjectId; any other
string, and any other value that the code can pass, is a `CastError`. -/
def castIdFilter (v : JsVal) : Except JsErr (Option String) :=
  match v with
  | .undefined => .ok none
  | .null => .ok none
  | .str s =>
    if isObjectIdString s then .ok (some s.toLower)
    else if s.length = 12 then .ok (some (hexOfString s))
    else .error (.error "Cast to ObjectId failed")
  | _ => .error (.error "Cast to ObjectId failed")

/-- Update of the first document with the given id, if any. -/
def updateFirst (id : String) (update : List (String × JsVal)) : List UserDoc → List UserDoc
  | [] => []
  | doc :: docs =>
    if doc.id = id then doc.applyUpdate update :: docs
    else doc :: updateFirst id update docs

/-- The call `User.updateOne({ _id: id }, update)`. -/
def User.updateOne (store : Store) (id : JsVal) (update : List (String × JsVal)) :
    Except JsErr Store :=
  if store.available = false then .error .storeError
  else
    match castIdFilter id with
    | .error e => .error e
    | .ok none => .ok store
    | .ok (some oid) => .ok { store with users := updateFirst oid update store.users }

/-! ## `src/middlewares/index.js` -/

/-- The parts of the Express request that the middleware touches; `user` is `none`
as long as `req.user` has not been assigned. -/
structure Request where
  headers : List (String × JsVal)
  originalUrl : String
  user : Option JsVal

/-- The parts of the Express response that the middleware touches: the status set
by `res.status`, the body sent by `res.json`, the headers set by `res.set`. -/
structure Response where
  statusCode : Option Nat
  body : Option JsVal
  headers : List (String × JsVal)

/-- The state one request runs in: request, response, the number of calls of
`next` so far, and the database. -/
structure Exchange where
  req : Request
  res : Response
  nextCalls : Nat
  store : Store

/-- The call `next()`. -/
def Exchange.next (x : Exchange) : Exchange :=
  { x with nextCalls := x.nextCalls + 1 }

/-- The assignment `req.user = v`. -/
def Exchange.setUser (x : Exchange) (v : JsVal) : Exchange :=
  { x with req := { x.req with user := some v } }

/-- The call `res.status(code).json(body)`. -/
def Exchange.respond (x : Exchange) (code : Nat) (body : JsVal) : Exchange :=
  { x with res := { x.res with statusCode := some code, body := some body } }

/-- The call `res.set(field, value)`. -/
def Exchange.setHeader (x : Exchange) (field : String) (value : JsVal) : Exchange :=
  { x with res := { x.res with headers := setOwn x.res.headers field value } }

/-- The array `unAuthenticatedUrls`. -/
def unAuthenticatedUrls : List String :=
  ["/healthcheck", "/api/v1/users/authenticate", "/api/v1/system/seed-data"]

/-- The path of a request url: the part before the query string. This is `req.path`
of Express, on which routes such as `app.get('/healthcheck', ...)` are matched,
whereas `req.originalUrl` is the whole url. -/
def pathOfUrl (url : String) : String :=
  String.mk (url.toList.takeWhile (fun c => c != '?'))

/-- The method `Array.prototype.indexOf` on an array of strings. -/
def indexOf : List String → String → Int
  | [], _ => -1
  | x :: xs, s =>
    if x = s then 0
    else if indexOf xs s = -1 then -1 else indexOf xs s + 1

/-- The `try` block of `extractUserFromToken`: the value it assigns to `req.user`,
or the error it raises into the `catch` block. -/
def accessTokenTry (env : Env) (now : Nat) (accessToken : JsVal) : Except JsErr JsVal :=
  if !accessToken.truthy || accessToken.strictEqStr "" then
    .error (.error "ERROR: AccessToken not specified")
  else
    match verifyToken env now accessToken with
    | .error e => .error e
    | .ok userFromAccessToken =>
      match userFromAccessToken.getProp "username" with
      | .error e => .error e
      | .ok username =>
        if !username.truthy || username.looseEqEmptyStr then
          .error (.error "ERROR: AccessToken Invalid")
        else .ok userFromAccessToken

/-- The `catch` block of `extractUserFromToken` together with the final
`return next()` that is reached when the block falls through. -/
def refreshTokenCatch (env : Env) (now : Nat) (x : Exchange) (refreshToken : JsVal) :
    Except JsErr Exchange :=
  let incomingUrl := x.req.originalUrl
  if indexOf unAuthenticatedUrls incomingUrl > -1 then
    .ok x.next
  else if !refreshToken.truthy || refreshToken.strictEqStr "" then
    .ok ((x.setUser .null).respond STATUS_UNAUTHORIZED
      (.obj [("error", .str "ERROR: Refresh token not found")]))
  else
    match verifyToken env now refreshToken with
    | .error e => .error e
    | .ok userFromRefreshToken =>
      if !userFromRefreshToken.truthy then
        .ok (x.respond STATUS_UNAUTHORIZED
          (.obj [("error", .str "ERROR: Invalid refresh token")]))
      else
        match generateNewTokensIfExpired env now userFromRefreshToken with
        | .error e => .error e
        | .ok tokens =>
          match userFromRefreshToken.getProp "_id" with
          | .error e => .error e
          | .ok id =>
            match User.updateOne x.store id [("newRefreshToken", tokens.newRefreshToken)] with
            | .error e => .error e
            | .ok store =>
              let x1 : Exchange := { x with store := store }
              let x2 := x1.setHeader "Access-Control-Expose-Headers"
                (.str "x-access-token, x-refresh-token")
              let x3 := x2.setHeader "x-access-token" tokens.newAccessToken
              let x4 := x3.setHeader "x-refresh-token" tokens.newRefreshToken
              .ok (x4.setUser userFromRefreshToken).next

/-- The middleware `extractUserFromToken(req, res, next)`. -/
def extractUserFromToken (env : Env) (now : Nat) (x : Exchange) : Except JsErr Exchange :=
  let accessToken := getOwn x.req.headers "x-access-token"
  let refreshToken := getOwn x.req.headers "x-refresh-token"
  match accessTokenTry env now accessToken with
  | .ok userFromAccessToken => .ok (x.setUser userFromAccessToken).next
  | .error _ => refreshTokenCatch env now x refreshToken

/-! ## Vocabulary of the statements and fixtures -/

/-- The claims that `jwt.sign` serialises. -/
def signedClaims (now : Nat) (payload : List (String × JsVal)) (expiresIn : Option Nat) :
    List (String × JsVal) :=
  match expiresIn with
  | some span =>
    setOwn (setOwn payload "iat" (.num (signTimestamp now payload))) "exp"
      (.num (signTimestamp now payload + span))
  | none => setOwn payload "iat" (.num (signTimestamp now payload))

/-- The access token is absent, empty or invalid: the header is `undefined`, is the
empty string, fails verification, or verifies to a payload whose `username` is
falsy or loosely equal to the empty string. -/
def AccessRejected (env : Env) (now : Nat) (accessToken : JsVal) : Prop :=
  accessToken = .undefined ∨ accessToken = .str "" ∨
  verifyToken env now accessToken = .ok .null ∨
  ∃ payload username, verifyToken env now accessToken = .ok payload ∧
    payload.getProp "username" = .ok username ∧
    (username.truthy = false ∨ username.looseEqEmptyStr = true)

/-- The object `testData` of the unit tests. -/
def testData : JsVal :=
  .obj [("email", .str "test@test.com"), ("firstname", .str "test_firstname"),
    ("lastname", .str "test_lastname")]

/-- A configuration with a signing key. -/
def testEnv : Env := { SECRET_TOKEN_KEY := "secret" }

/-- A response with nothing set, a database with no document, and a request with
the given url and headers that enters the middleware first. -/
def freshExchange (originalUrl : String) (headers : List (String × JsVal)) : Exchange :=
  { req := { headers := headers, originalUrl := originalUrl, user := none },
    res := { statusCode := none, body := none, headers := [] },
    nextCalls := 0,
    store := { users := [], available := true } }

/-! ## The login route of `src/http-handlers/user.js` and the libraries it calls -/

mutual
/-- Whether two values are the same value, component by component. On strings this
is string equality, which is how the database matches a string path. -/
def JsVal.eqv : JsVal → JsVal → Bool
  | .undefined, .undefined => true
  | .null, .null => true
  | .bool a, .bool b => a == b
  | .num a, .num b => a == b
  | .nan, .nan => true
  | .str a, .str b => a == b
  | .jws k p, .jws l q => k == l && JsVal.eqv p q
  | .arr xs, .arr ys => JsVal.eqvList xs ys
  | .obj fs, .obj gs => JsVal.eqvFields fs gs
  | _, _ => false
/-- Element-wise `JsVal.eqv` on arrays. -/
def JsVal.eqvList : List JsVal → List JsVal → Bool
  | [], [] => true
  | x :: xs, y :: ys => JsVal.eqv x y && JsVal.eqvList xs ys
  | _, _ => false
/-- Field-wise `JsVal.eqv` on field lists. -/
def JsVal.eqvFields : List (String × JsVal) → List (String × JsVal) → Bool
  | [], [] => true
  | (k, x) :: xs, (l, y) :: ys => k == l && JsVal.eqv x y && JsVal.eqvFields xs ys
  | _, _ => false
end

/-- The constant `httpStatus.STATUS_BAD_REQUEST`. -/
def STATUS_BAD_REQUEST : Nat := 400

/-- The call `bcrypt.compareSync(data, hash)`: both arguments are required, `data`
and `hash` must be strings; then the hash check itself, the parameter `verifies`. -/
def bcryptCompareSync (verifies : JsVal → JsVal → Bool) (data hash : JsVal) :
    Except JsErr Bool :=
  if data.looseEqNull || hash.looseEqNull then
    .error (.error "data and hash arguments required")
  else if data.typeOf != .string || hash.typeOf != .string then
    .error (.error "data must be a string or Buffer and hash must be a string")
  else .ok (verifies data hash)

/-- A Joi schema, through its method `validate`: the messages of the details of
`schema.validate(input).error`, or `none` when there is no error. -/
structure JoiSchema where
  validate : JsVal → Option (List String)

/-- The rule `Joi.string().required()` on the key `key`: the message of the
violation, if any. An absent key is `undefined`; the empty string is not allowed. -/
def joiRequiredString (key : String) (v : JsVal) : Option String :=
  match v with
  | .undefined => some ("\"" ++ key ++ "\" is required")
  | .str s => if s = "" then some ("\"" ++ key ++ "\" is not allowed to be empty") else none
  | .jws _ _ => none
  | _ => some ("\"" ++ key ++ "\" must be a string")

/-- The schema of the login route,
`Joi.object({ username: Joi.string().required(), password: Joi.string().required() })`:
validation stops at the first violation; the schema keys are checked in order, then
keys that the schema does not declare are refused. -/
def authenticateSchema : JoiSchema where
  validate input :=
    match input with
    | .undefined => none
    | .obj fs =>
      match joiRequiredString "username" (getOwn fs "username") with
      | some message => some [message]
      | none =>
        match joiRequiredString "password" (getOwn fs "password") with
        | some message => some [message]
        | none =>
          match fs.find? (fun f => f.1 != "username" && f.1 != "password") with
          | some f => some ["\"" ++ f.1 ++ "\" is not allowed"]
          | none => none
    | _ => some ["\"value\" must be of type object"]

/-- The function `validateObject(schema, input)` of `src/utilities/index.js`. -/
def validateObject (schema : JoiSchema) (input : JsVal) : List String :=
  match schema.validate input with
  | some errorList => errorList
  | none => []

/-- The middleware `validateHTTPBody(validationScheme)` of `src/middlewares/index.js`
on the body `req.body`; nothing in its `try` block raises, so its `catch` block is
never entered. -/
def validateHTTPBody (validationScheme : JoiSchema) (body : JsVal) (x : Exchange) :
    Except JsErr Exchange :=
  let valErrors := validateObject validationScheme body
  if valErrors.length > 0 then
    .ok (x.respond STATUS_BAD_REQUEST (.obj [("error", .arr (valErrors.map .str))]))
  else .ok x.next

/-- The cast of the filter value of a string path: `undefined` and `null` select no
document (`none`), strings are kept, numbers and booleans are printed, an array
(inside an array filter) is a `CastError`; a plain object, which the database reads
as query operators, is not modelled beyond raising. -/
def castStringFilter (v : JsVal) : Except JsErr (Option JsVal) :=
  match v with
  | .undefined => .ok none
  | .null => .ok none
  | .str s => .ok (some (.str s))
  | .jws k p => .ok (some (.jws k p))
  | .num n => .ok (some (.str (toString n)))
  | .nan => .ok (some (.str "NaN"))
  | .bool b => .ok (some (.str (toString b)))
  | _ => .error (.error "Cast to string failed")

/-- The cast of an array filter on a string path, which is read as `$in`: each
element is cast on its own, `null` elements select no document. -/
def castStringIn : List JsVal → Except JsErr (List JsVal)
  | [] => .ok []
  | v :: vs =>
    match castStringFilter v with
    | .error e => .error e
    | .ok none => castStringIn vs
    | .ok (some name) =>
      match castStringIn vs with
      | .error e => .error e
      | .ok names => .ok (name :: names)

/-- The call `User.findOne({ username })`: the first document with that username
(with one of the usernames, for an array), `none` for the result `null`. -/
def User.findOne (store : Store) (username : JsVal) : Except JsErr (Option UserDoc) :=
  if store.available = false then .error .storeError
  else
    match username with
    | .arr values =>
      match castStringIn values with
      | .error e => .error e
      | .ok names =>
        .ok (store.users.find? (fun doc => names.any (fun name => doc.username.eqv name)))
    | _ =>
      match castStringFilter username with
      | .error e => .error e
      | .ok none => .ok none
      | .ok (some name) => .ok (store.users.find? (fun doc => doc.username.eqv name))

/-- The call `User.findOneAndUpdate({ _id: id }, update)` with the `_id` of a
document that was read from the collection. -/
def User.findOneAndUpdate (store : Store) (id : String) (update : List (String × JsVal)) :
    Except JsErr Store :=
  if store.available = false then .error .storeError
  else .ok { store with users := updateFirst id update store.users }

/-- The object `jwtData` that the login handler builds from the user document; the
schema has no path `role`, so `user.role` is `undefined`. -/
def jwtDataOf (user : UserDoc) : JsVal :=
  .obj [("userId", .str user.id), ("role", .undefined), ("username", user.username),
    ("firstname", user.firstname), ("lastname", user.lastname)]

/-- The `try` block of the handler of `POST /authenticate` on the body `req.body`. -/
def authenticateTry (env : Env) (now : Nat) (verifies : JsVal → JsVal → Bool)
    (body : JsVal) (x : Exchange) : Except JsErr Exchange :=
  match body.getProp "username" with
  | .error e => .error e
  | .ok username =>
    match body.getProp "password" with
    | .error e => .error e
    | .ok password =>
      match User.findOne x.store username with
      | .error e => .error e
      | .ok none =>
        .ok (x.respond STATUS_UNAUTHORIZED (.obj [("result", .str "ERROR: user does not exists")]))
      | .ok (some user) =>
        match bcryptCompareSync verifies password user.password with
        | .error e => .error e
        | .ok isPasswordValid =>
          if isPasswordValid = false then
            .ok (x.respond STATUS_UNAUTHORIZED
              (.obj [("result", .str "ERROR: failed to authenticate")]))
          else
            match generateToken env now (jwtDataOf user) (.str "accessToken") with
            | .error e => .error e
            | .ok accessToken =>
              match generateToken env now (jwtDataOf user) (.str "refreshToken") with
              | .error e => .error e
              | .ok refreshToken =>
                match User.findOneAndUpdate x.store user.id [("refreshToken", refreshToken)] with
                | .error e => .error e
                | .ok store =>
                  let x1 : Exchange := { x with store := store }
                  .ok (x1.respond STATUS_OK
                    (.obj [("result", .str "ok"), ("accessToken", accessToken),
                      ("refreshToken", refreshToken)]))

/-- The handler of `POST /authenticate`: the `try` block, with the `catch` block that
answers 500. -/
def authenticateHandler (env : Env) (now : Nat) (verifies : JsVal → JsVal → Bool)
    (body : JsVal) (x : Exchange) : Except JsErr Exchange :=
  match authenticateTry env now verifies body x with
  | .ok y => .ok y
  | .error _ =>
    .ok (x.respond STATUS_SERVER_ERROR
      (.obj [("error",
        .str "ERROR: Server failed to process your request(s) please try again")]))

/-! ## Fixtures of the renewal and login scenarios -/

/-- A login payload: the identity of the user `u`. -/
def loginPayload : JsVal :=
  .obj [("userId", .str "5f8d0d55b54764421b7156c1"), ("username", .str "u")]

/-- The claims of the refresh token issued for `loginPayload` at second 1000. -/
def refreshClaims : JsVal :=
  .obj [("userId", .str "5f8d0d55b54764421b7156c1"), ("username", .str "u"),
    ("iat", .num 1000)]

/-- The refresh token issued for `loginPayload` at second 1000. -/
def issuedRefreshToken : JsVal := .jws "secret" refreshClaims

/-- The access token issued for `loginPayload` at second 1000; it expires at second
35997400. -/
def issuedAccessToken : JsVal :=
  .jws "secret"
    (.obj [("userId", .str "5f8d0d55b54764421b7156c1"), ("username", .str "u"),
      ("iat", .num 1000), ("exp", .num 35997400)])

/-- The refresh token issued for `loginPayload` at a later login, at second 2000. -/
def laterRefreshToken : JsVal :=
  .jws "secret"
    (.obj [("userId", .str "5f8d0d55b54764421b7156c1"), ("username", .str "u"),
      ("iat", .num 2000)])

/-- The document of the user `u`, holding the refresh token of the later login. -/
def userU : UserDoc :=
  { id := "5f8d0d55b54764421b7156c1", firstname := .str "U", lastname := .undefined,
    username := .str "u", password := .str "hash(pw)", refreshToken := laterRefreshToken }

/-- A hash check for the fixtures: the hash of `pw` is `hash(pw)`. -/
def fixtureVerifies (data hash : JsVal) : Bool :=
  match data, hash with
  | .str d, .str h => h == "hash(" ++ d ++ ")"
  | _, _ => false

/-- A request entering a handler with the given database. -/
def exchangeWith (originalUrl : String) (headers : List (String × JsVal)) (store : Store) :
    Exchange :=
  { req := { headers := headers, originalUrl := originalUrl, user := none },
    res := { statusCode := none, body := none, headers := [] },
    nextCalls := 0,
    store := store }

/-! ## Basic facts about values -/

theorem truthy_typeOf_ne_undefined {v : JsVal} (h : v.truthy = true) :
    (v.typeOf == JsType.undefined) = false := by
  cases v <;> simp_all [JsVal.truthy, JsVal.typeOf]

theorem truthy_not_strictEq_empty {v : JsVal} (h : v.truthy = true) :
    v.strictEqStr "" = false := by
  cases v <;> simp_all [JsVal.truthy, JsVal.strictEqStr]

/-! ## Field lists -/

theorem getOwn_setOwn_same (fs : List (String × JsVal)) (k : String) (v : JsVal) :
    getOwn (setOwn fs k v) k = v := by
  induction fs with
  | nil => simp [setOwn, getOwn]
  | cons f fs ih =>
    obtain ⟨k0, w⟩ := f
    by_cases h : k0 = k
    · simp [setOwn, getOwn, h]
    · simp [setOwn, getOwn, h, ih]

theorem getOwn_setOwn_ne (fs : List (String × JsVal)) (k key : String) (v : JsVal)
    (hne : k ≠ key) : getOwn (setOwn fs k v) key = getOwn fs key := by
  induction fs with
  | nil => simp [setOwn, getOwn, hne]
  | cons f fs ih =>
    obtain ⟨k0, w⟩ := f
    by_cases h : k0 = k
    · subst h
      simp [setOwn, getOwn, hne]
    · by_cases h2 : k0 = key
      · subst h2
        simp [setOwn, getOwn, h]
      · simp [setOwn, getOwn, h, h2, ih]

theorem hasOwn_setOwn_ne (fs : List (String × JsVal)) (k key : String) (v : JsVal)
    (hne : k ≠ key) : hasOwn (setOwn fs k v) key = hasOwn fs key := by
  induction fs with
  | nil => simp [setOwn, hasOwn, hne]
  | cons f fs ih =>
    obtain ⟨k0, w⟩ := f
    by_cases h : k0 = k
    · subst h
      simp [setOwn, hasOwn, hne]
    · by_cases h2 : k0 = key
      · subst h2
        simp [setOwn, hasOwn, h]
      · simp [setOwn, hasOwn, h, h2, ih]

theorem getOwn_of_not_hasOwn (fs : List (String × JsVal)) (key : String)
    (h : hasOwn fs key = false) : getOwn fs key = .undefined := by
  induction fs with
  | nil => rfl
  | cons f fs ih =>
    obtain ⟨k0, w⟩ := f
    by_cases h2 : k0 = key
    · simp [hasOwn, h2] at h
    · simp [hasOwn, h2] at h
      simp [getOwn, h2, ih h]

theorem not_mem_of_not_hasOwn (fs : List (String × JsVal)) (key : String)
    (h : hasOwn fs key = false) (v : JsVal) : (key, v) ∉ fs := by
  induction fs with
  | nil => simp
  | cons f fs ih =>
    obtain ⟨k0, w⟩ := f
    by_cases h2 : k0 = key
    · simp [hasOwn, h2] at h
    · simp [hasOwn, h2] at h
      intro hmem
      rcases List.mem_cons.mp hmem with heq | hmem
      · exact h2 (by injection heq with h3 _; exact h3.symm)
      · exact ih h hmem

theorem hasOwn_jsonObj (fs : List (String × JsVal)) (key : String)
    (h : hasOwn fs key = false) : hasOwn (jsonObj fs) key = false := by
  induction fs with
  | nil => simp [jsonObj, hasOwn]
  | cons f fs ih =>
    obtain ⟨k0, w⟩ := f
    by_cases h2 : k0 = key
    · simp [hasOwn, h2] at h
    · simp [hasOwn, h2] at h
      cases w <;> simp [jsonObj, hasOwn, h2, ih h]

theorem getOwn_jsonObj (fs : List (String × JsVal)) (key : String)
    (h : getOwn fs key ≠ .undefined) : getOwn (jsonObj fs) key = (getOwn fs key).json := by
  induction fs with
  | nil => simp [getOwn] at h
  | cons f fs ih =>
    obtain ⟨k0, w⟩ := f
    by_cases h2 : k0 = key
    · simp [getOwn, h2] at h
      cases w <;> simp_all [jsonObj, getOwn]
    · simp [getOwn, h2] at h
      cases w <;> simp [jsonObj, getOwn, h2, ih h]

/-! ## `jwt.sign` and `jwt.verify` -/

theorem validatePayload_ok (fs : List (String × JsVal))
    (h : ∀ k v, (k, v) ∈ fs → (k = "iat" ∨ k = "exp" ∨ k = "nbf") → isNumber v = true) :
    validatePayload fs = .ok () := by
  induction fs with
  | nil => rfl
  | cons f fs ih =>
    obtain ⟨k0, w⟩ := f
    have hw : (k0 = "iat" ∨ k0 = "exp" ∨ k0 = "nbf") → isNumber w = true :=
      h k0 w (List.mem_cons_self _ _)
    have ih2 := ih (fun k v hm => h k v (List.mem_cons_of_mem _ hm))
    by_cases hk : k0 = "iat" ∨ k0 = "exp" ∨ k0 = "nbf"
    · simp [validatePayload, hw hk, ih2]
    · simp [validatePayload, hk, ih2]

/-- With a key, a payload that passes validation and no `exp` of its own,
`jwt.sign` returns the token over the payload with `iat` (and `exp`) set. -/
theorem jwtSign_ok (now : Nat) (fs : List (String × JsVal)) (key : String)
    (expiresIn : Option Nat) (hkey : key ≠ "") (hval : validatePayload fs = .ok ())
    (hexp : hasOwn fs "exp" = false) :
    jwtSign now fs key expiresIn = .ok (.jws key (.obj (jsonObj (signedClaims now fs expiresIn)))) := by
  have h1 : getOwn fs "exp" = .undefined := getOwn_of_not_hasOwn fs "exp" hexp
  cases expiresIn <;> simp [jwtSign, hkey, hval, h1, JsVal.typeOf, signedClaims]

/-- With a key and a payload that passes validation, `jwt.sign` without options
returns the token over the payload with `iat` set. -/
theorem jwtSign_none_ok (now : Nat) (fs : List (String × JsVal)) (key : String)
    (hkey : key ≠ "") (hval : validatePayload fs = .ok ()) :
    jwtSign now fs key none = .ok (.jws key (.obj (jsonObj (signedClaims now fs none)))) := by
  simp [jwtSign, hkey, hval, signedClaims]

/-- A token signed with the key, active and not expired, verifies to its payload. -/
theorem jwtVerify_ok (now : Nat) (key : String) (payload : JsVal) (hkey : key ≠ "")
    (hnbf : checkNotBefore now (claimOf payload "nbf") = .ok ())
    (hexp : checkExpiry now (claimOf payload "exp") = .ok ()) :
    jwtVerify now (.jws key payload) key = .ok payload := by
  simp [jwtVerify, JsVal.truthy, hkey, hnbf, hexp]

/-- A token signed with the configured key, active, not expired and with a truthy
payload, is returned decoded by `verifyToken`. -/
theorem verifyToken_ok (env : Env) (now : Nat) (payload : JsVal)
    (hkey : env.SECRET_TOKEN_KEY ≠ "") (htruthy : payload.truthy = true)
    (hnbf : checkNotBefore now (claimOf payload "nbf") = .ok ())
    (hexp : checkExpiry now (claimOf payload "exp") = .ok ()) :
    verifyToken env now (.jws env.SECRET_TOKEN_KEY payload) = .ok payload := by
  have h := jwtVerify_ok now env.SECRET_TOKEN_KEY payload hkey hnbf hexp
  simp [verifyToken, verifyTokenTry, validatorIsEmpty, JsVal.strictEqStr, h, htruthy]
  simp [JsVal.truthy]

/-- The function `verifyToken` always returns. -/
theorem verifyToken_returns (env : Env) (now : Nat) (token : JsVal) :
    ∃ v, verifyToken env now token = .ok v := by
  unfold verifyToken
  cases verifyTokenTry env now token with
  | ok v => exact ⟨v, rfl⟩
  | error e => exact ⟨.null, rfl⟩

/-- What `verifyToken` returns is `null` or truthy. -/
theorem verifyToken_null_or_truthy (env : Env) (now : Nat) (token v : JsVal)
    (h : verifyToken env now token = .ok v) : v = .null ∨ v.truthy = true := by
  unfold verifyToken at h
  cases hb : verifyTokenTry env now token with
  | error e => simp [hb] at h; exact Or.inl h.symm
  | ok w =>
    simp [hb] at h
    subst h
    right
    unfold verifyTokenTry at hb
    cases h1 : validatorIsEmpty token with
    | error e => simp [h1] at hb
    | ok empty =>
      simp only [h1] at hb
      split at hb
      · cases hb
      · cases h2 : jwtVerify now token env.SECRET_TOKEN_KEY with
        | error e => simp [h2] at hb
        | ok d =>
          simp only [h2] at hb
          split at hb
          · cases hb
          · rename_i h3
            injection hb with hb
            subst hb
            simpa using h3

/-! ## `generateToken`: the guards -/

/-- The first guard alone decides the result on a falsy payload. -/
theorem generateToken_of_falsy_payload (env : Env) (now : Nat) (payload type : JsVal)
    (h : payload.truthy = false) :
    generateToken env now payload type = .error .ErrGenerateTokenPayloadNotSpecified := by
  simp [generateToken, h]

/-- The second guard decides the result on a truthy payload and a falsy type. -/
theorem generateToken_of_falsy_type (env : Env) (now : Nat) (payload type : JsVal)
    (hp : payload.truthy = true) (h : type.truthy = false) :
    generateToken env now payload type = .error .ErrorGenerateTokenTypeNotSpecified := by
  simp [generateToken, hp, h, truthy_typeOf_ne_undefined hp]

/-- The third guard: a truthy payload that is not a plain object, with a truthy type. -/
theorem generateToken_of_bad_payload (env : Env) (now : Nat) (payload type : JsVal)
    (hp : payload.truthy = true) (ht : type.truthy = true)
    (hbad : payload.typeOf ≠ .object ∨ payload.isArray = true) :
    generateToken env now payload type = .error .ErrGenerateTokenPayloadInvalidDataType := by
  have h1 := truthy_typeOf_ne_undefined hp
  have h2 := truthy_not_strictEq_empty ht
  rcases hbad with hbad | hbad
  · simp [generateToken, hp, ht, h1, h2, hbad]
  · simp [generateToken, hp, ht, h1, h2, hbad]

/-- On a plain object and a truthy type, the four guards reduce to the test of the
type of `type`. -/
theorem generateToken_obj (env : Env) (now : Nat) (fs : List (String × JsVal)) (type : JsVal)
    (ht : type.truthy = true) :
    generateToken env now (.obj fs) type =
      if type.typeOf != .string then .error .ErrorGenerateTokenTypeInvalidDataType
      else if type.strictEqStr "accessToken" then
        jwtSign now fs env.SECRET_TOKEN_KEY (some (60 * 60 * 9999))
      else if type.strictEqStr "refreshToken" then
        jwtSign now fs env.SECRET_TOKEN_KEY none
      else .error .ErrorGenerateTokenTypeInvalidValue := by
  have h2 := truthy_not_strictEq_empty ht
  have h3 : (JsVal.obj fs).truthy = true := rfl
  have h4 : (JsVal.obj fs).typeOf = .object := rfl
  have h5 : (JsVal.obj fs).isArray = false := rfl
  have h6 : (JsVal.obj fs).isNull = false := rfl
  have h7 : (JsVal.obj fs).ownFields = fs := rfl
  simp only [generateToken, ht, h2, h3, h4, h5, h6, h7]
  simp

/-! ## `generateToken`: issuing -/

/-- Payloads that `jwt.sign` accepts whatever the options: no `exp` claim, and
`iat` and `nbf` claims, if any, that are numbers. -/
theorem validatePayload_of_numeric (fs : List (String × JsVal))
    (hexp : hasOwn fs "exp" = false)
    (hiat : ∀ v, ("iat", v) ∈ fs → isNumber v = true)
    (hnbf : ∀ v, ("nbf", v) ∈ fs → isNumber v = true) :
    validatePayload fs = .ok () := by
  apply validatePayload_ok
  intro k v hm hk
  rcases hk with hk | hk | hk
  · subst hk; exact hiat v hm
  · subst hk; exact absurd hm (not_mem_of_not_hasOwn fs "exp" hexp v)
  · subst hk; exact hnbf v hm

theorem generateToken_access_ok (env : Env) (now : Nat) (fs : List (String × JsVal))
    (hkey : env.SECRET_TOKEN_KEY ≠ "") (hval : validatePayload fs = .ok ())
    (hexp : hasOwn fs "exp" = false) :
    generateToken env now (.obj fs) (.str "accessToken") =
      .ok (.jws env.SECRET_TOKEN_KEY
        (.obj (jsonObj (signedClaims now fs (some (60 * 60 * 9999)))))) := by
  rw [generateToken_obj env now fs (.str "accessToken") (by decide)]
  simp [JsVal.typeOf, JsVal.strictEqStr, jwtSign_ok now fs _ (some 35996400) hkey hval hexp]

theorem generateToken_refresh_ok (env : Env) (now : Nat) (fs : List (String × JsVal))
    (hkey : env.SECRET_TOKEN_KEY ≠ "") (hval : validatePayload fs = .ok ()) :
    generateToken env now (.obj fs) (.str "refreshToken") =
      .ok (.jws env.SECRET_TOKEN_KEY (.obj (jsonObj (signedClaims now fs none)))) := by
  rw [generateToken_obj env now fs (.str "refreshToken") (by decide)]
  simp [JsVal.typeOf, JsVal.strictEqStr, jwtSign_none_ok now fs _ hkey hval]

theorem getOwn_signedClaims (now : Nat) (fs : List (String × JsVal)) (expiresIn : Option Nat)
    (k : String) (hiat : k ≠ "iat") (hexp : k ≠ "exp") :
    getOwn (signedClaims now fs expiresIn) k = getOwn fs k := by
  cases expiresIn with
  | none => simp [signedClaims, getOwn_setOwn_ne _ "iat" k _ (Ne.symm hiat)]
  | some span =>
    simp [signedClaims, getOwn_setOwn_ne _ "iat" k _ (Ne.symm hiat),
      getOwn_setOwn_ne _ "exp" k _ (Ne.symm hexp)]

theorem hasOwn_signedClaims (now : Nat) (fs : List (String × JsVal)) (expiresIn : Option Nat)
    (k : String) (hiat : k ≠ "iat") (hexp : k ≠ "exp") :
    hasOwn (signedClaims now fs expiresIn) k = hasOwn fs k := by
  cases expiresIn with
  | none => simp [signedClaims, hasOwn_setOwn_ne _ "iat" k _ (Ne.symm hiat)]
  | some span =>
    simp [signedClaims, hasOwn_setOwn_ne _ "iat" k _ (Ne.symm hiat),
      hasOwn_setOwn_ne _ "exp" k _ (Ne.symm hexp)]

theorem getOwn_signedClaims_exp (now : Nat) (fs : List (String × JsVal)) (span : Nat) :
    getOwn (jsonObj (signedClaims now fs (some span))) "exp" =
      .num (signTimestamp now fs + span) := by
  have h : getOwn (signedClaims now fs (some span)) "exp" =
      .num (signTimestamp now fs + span) := by
    simp [signedClaims, getOwn_setOwn_same]
  rw [getOwn_jsonObj _ _ (by rw [h]; simp), h]
  simp [JsVal.json]

theorem hasOwn_signedClaims_none_exp (now : Nat) (fs : List (String × JsVal))
    (hexp : hasOwn fs "exp" = false) :
    hasOwn (jsonObj (signedClaims now fs none)) "exp" = false := by
  apply hasOwn_jsonObj
  simp [signedClaims, hasOwn_setOwn_ne _ "iat" "exp" _ (by decide), hexp]

theorem signTimestamp_of_no_iat (now : Nat) (fs : List (String × JsVal))
    (hiat : hasOwn fs "iat" = false) : signTimestamp now fs = now := by
  simp [signTimestamp, getOwn_of_not_hasOwn fs "iat" hiat]

/-! ## Claims C1, C2 -/

/-- C1 as stated fails: a plain-object payload that carries an `exp` claim is a
valid payload, yet `generateToken(payload, 'accessToken')` returns no token;
`jwt.sign` refuses the option `expiresIn` next to a payload `exp`. -/
theorem C1_counterexample :
    generateToken testEnv 1000 (.obj [("username", .str "u"), ("exp", .num 4102444800)])
        (.str "accessToken") =
      .error (.error
        "Bad \"options.expiresIn\" option the payload already has an \"exp\" property.") ∧
    ¬ ∃ token, generateToken testEnv 1000
        (.obj [("username", .str "u"), ("exp", .num 4102444800)]) (.str "accessToken") =
      .ok token := by
  have h : generateToken testEnv 1000 (.obj [("username", .str "u"), ("exp", .num 4102444800)])
        (.str "accessToken") =
      .error (.error
        "Bad \"options.expiresIn\" option the payload already has an \"exp\" property.") := rfl
  refine ⟨h, ?_⟩
  rintro ⟨token, ht⟩
  rw [h] at ht
  cases ht

/-- C1 amended: with a signing key configured, for every plain-object payload that
carries none of the registered claims `iat`, `exp`, `nbf` and for both token types,
`generateToken` returns a token; verifying it with the same key (with `jwt.verify`
or `verifyToken`), for an access token before its expiry 9999 hours after issuance,
yields a decoded object in which every claim of the payload whose value survives
JSON serialisation is present with its value unchanged. -/
theorem C1_issue_verify_round_trip (env : Env) (now later : Nat)
    (fs : List (String × JsVal)) (type : JsVal)
    (hkey : env.SECRET_TOKEN_KEY ≠ "")
    (htype : type = .str "accessToken" ∨ type = .str "refreshToken")
    (hiat : hasOwn fs "iat" = false) (hexp : hasOwn fs "exp" = false)
    (hnbf : hasOwn fs "nbf" = false)
    (hclock : type = .str "accessToken" → later < now + 60 * 60 * 9999) :
    ∃ decoded,
      generateToken env now (.obj fs) type =
        .ok (.jws env.SECRET_TOKEN_KEY (.obj decoded)) ∧
      jwtVerify later (.jws env.SECRET_TOKEN_KEY (.obj decoded)) env.SECRET_TOKEN_KEY =
        .ok (.obj decoded) ∧
      verifyToken env later (.jws env.SECRET_TOKEN_KEY (.obj decoded)) = .ok (.obj decoded) ∧
      ∀ k, getOwn fs k ≠ .undefined → (getOwn fs k).json = getOwn fs k →
        getOwn decoded k = getOwn fs k := by
  have hval : validatePayload fs = .ok () :=
    validatePayload_of_numeric fs hexp
      (fun v hm => absurd hm (not_mem_of_not_hasOwn fs "iat" hiat v))
      (fun v hm => absurd hm (not_mem_of_not_hasOwn fs "nbf" hnbf v))
  have hclaims : ∀ (e : Option Nat) (k : String), getOwn fs k ≠ .undefined →
      (getOwn fs k).json = getOwn fs k →
      getOwn (jsonObj (signedClaims now fs e)) k = getOwn fs k := by
    intro e k hk hjson
    have hk1 : k ≠ "iat" := by
      intro h; subst h; exact hk (getOwn_of_not_hasOwn fs "iat" hiat)
    have hk2 : k ≠ "exp" := by
      intro h; subst h; exact hk (getOwn_of_not_hasOwn fs "exp" hexp)
    have h1 := getOwn_signedClaims now fs e k hk1 hk2
    rw [getOwn_jsonObj _ _ (by rw [h1]; exact hk), h1, hjson]
  have hnbf2 : ∀ e : Option Nat,
      checkNotBefore later (claimOf (.obj (jsonObj (signedClaims now fs e))) "nbf") = .ok () := by
    intro e
    have h1 : hasOwn (jsonObj (signedClaims now fs e)) "nbf" = false :=
      hasOwn_jsonObj _ _ (by
        rw [hasOwn_signedClaims now fs e "nbf" (by decide) (by decide)]; exact hnbf)
    simp [claimOf, getOwn_of_not_hasOwn _ _ h1, checkNotBefore]
  rcases htype with ht | ht
  · subst ht
    have hlater : later < now + 60 * 60 * 9999 := hclock rfl
    have hexp2 : checkExpiry later
        (claimOf (.obj (jsonObj (signedClaims now fs (some (60 * 60 * 9999))))) "exp") =
        .ok () := by
      simp only [claimOf]
      rw [getOwn_signedClaims_exp, signTimestamp_of_no_iat now fs hiat]
      simp only [checkExpiry]
      rw [if_neg]
      push_cast
      omega
    exact ⟨_, generateToken_access_ok env now fs hkey hval hexp,
      jwtVerify_ok later _ _ hkey (hnbf2 _) hexp2,
      verifyToken_ok env later _ hkey rfl (hnbf2 _) hexp2,
      hclaims _⟩
  · subst ht
    have hexp2 : checkExpiry later
        (claimOf (.obj (jsonObj (signedClaims now fs none))) "exp") = .ok () := by
      simp [claimOf, getOwn_of_not_hasOwn _ _ (hasOwn_signedClaims_none_exp now fs hexp),
        checkExpiry]
    exact ⟨_, generateToken_refresh_ok env now fs hkey hval,
      jwtVerify_ok later _ _ hkey (hnbf2 _) hexp2,
      verifyToken_ok env later _ hkey rfl (hnbf2 _) hexp2,
      hclaims _⟩

/-- Witness of C1 amended: the access token of the unit test, issued at second 1000
and verified at second 2000. -/
theorem C1_issue_verify_round_trip_witness :
    ∃ decoded,
      generateToken testEnv 1000 testData (.str "accessToken") =
        .ok (.jws "secret" (.obj decoded)) ∧
      jwtVerify 2000 (.jws "secret" (.obj decoded)) "secret" = .ok (.obj decoded) ∧
      verifyToken testEnv 2000 (.jws "secret" (.obj decoded)) = .ok (.obj decoded) ∧
      ∀ k, getOwn testData.ownFields k ≠ .undefined →
        (getOwn testData.ownFields k).json = getOwn testData.ownFields k →
        getOwn decoded k = getOwn testData.ownFields k :=
  C1_issue_verify_round_trip testEnv 1000 2000 testData.ownFields (.str "accessToken")
    (by decide) (Or.inl rfl) rfl rfl rfl (fun _ => by decide)

/-- C2, evaluated where it fails: the payload `{ username: 'u', exp: 4102444800 }`
is a valid payload, and the refresh token that `generateToken` issues for it at
second 1000 decodes with that `exp` claim present; the token does not last forever:
from second 4102444800 on `verifyToken` answers `null`. -/
theorem C2_refresh_token_keeps_payload_exp :
    generateToken testEnv 1000 (.obj [("username", .str "u"), ("exp", .num 4102444800)])
        (.str "refreshToken") =
      .ok (.jws "secret"
        (.obj [("username", .str "u"), ("exp", .num 4102444800), ("iat", .num 1000)])) ∧
    claimOf (.obj [("username", .str "u"), ("exp", .num 4102444800), ("iat", .num 1000)])
      "exp" = .num 4102444800 ∧
    verifyToken testEnv 4102444800
        (.jws "secret"
          (.obj [("username", .str "u"), ("exp", .num 4102444800), ("iat", .num 1000)])) =
      .ok .null :=
  ⟨rfl, rfl, rfl⟩

/-- Away from such payloads the expiry claims are as intended: with a signing key
configured, for every plain-object payload that has no `exp` claim of its own and
whose `iat` and `nbf` claims, if any, are numbers, the access token decodes with a
numeric claim `exp`, the refresh token decodes with no `exp` claim, and
`generateNewTokensIfExpired` returns exactly these two tokens. -/
theorem issued_tokens_expiry (env : Env) (now : Nat) (fs : List (String × JsVal))
    (hkey : env.SECRET_TOKEN_KEY ≠ "") (hexp : hasOwn fs "exp" = false)
    (hiat : ∀ v, ("iat", v) ∈ fs → isNumber v = true)
    (hnbf : ∀ v, ("nbf", v) ∈ fs → isNumber v = true) :
    ∃ access refresh,
      generateToken env now (.obj fs) (.str "accessToken") =
        .ok (.jws env.SECRET_TOKEN_KEY (.obj access)) ∧
      (getOwn access "exp").typeOf = .number ∧
      generateToken env now (.obj fs) (.str "refreshToken") =
        .ok (.jws env.SECRET_TOKEN_KEY (.obj refresh)) ∧
      hasOwn refresh "exp" = false ∧
      generateNewTokensIfExpired env now (.obj fs) =
        .ok { newRefreshToken := .jws env.SECRET_TOKEN_KEY (.obj refresh),
              newAccessToken := .jws env.SECRET_TOKEN_KEY (.obj access) } := by
  have hval := validatePayload_of_numeric fs hexp hiat hnbf
  have ha := generateToken_access_ok env now fs hkey hval hexp
  have hr := generateToken_refresh_ok env now fs hkey hval
  refine ⟨_, _, ha, ?_, hr, hasOwn_signedClaims_none_exp now fs hexp, ?_⟩
  · rw [getOwn_signedClaims_exp]
    rfl
  · simp [generateNewTokensIfExpired, JsVal.truthy, JsVal.looseEqNull, ha, hr]

/-! ## Claims C3, C4, C5 -/

/-- C3: whatever `type` is (absent, a non-string, an unsupported string, anything),
`generateToken(undefined, type)` raises `ErrGenerateTokenPayloadNotSpecified`; in
particular no token is produced. -/
theorem C3_absent_payload_reported_first (env : Env) (now : Nat) (type : JsVal) :
    generateToken env now .undefined type = .error .ErrGenerateTokenPayloadNotSpecified :=
  generateToken_of_falsy_payload env now .undefined type rfl

/-- C4 as stated fails: the empty array is a payload that is present and is an
array, yet with `type` absent the error is `ErrorGenerateTokenTypeNotSpecified`, the
guard on `type` being tested before the data type of the payload. -/
theorem C4_counterexample :
    generateToken testEnv 1000 (.arr []) .undefined = .error .ErrorGenerateTokenTypeNotSpecified ∧
    generateToken testEnv 1000 (.arr []) .undefined ≠
      .error .ErrGenerateTokenPayloadInvalidDataType := by
  constructor
  · rfl
  · intro h
    have h2 : generateToken testEnv 1000 (.arr []) .undefined =
        .error .ErrorGenerateTokenTypeNotSpecified := rfl
    rw [h2] at h
    cases h

/-- C4 amended: a truthy payload that is an array or is not an object is rejected
with `ErrGenerateTokenPayloadInvalidDataType` for every truthy `type`; with a falsy
`type` (absent, `null`, `''`, `0`, `false`, `NaN`) the error is
`ErrorGenerateTokenTypeNotSpecified`; and a falsy payload (`0`, `''`, `false`,
`NaN`) is reported as `ErrGenerateTokenPayloadNotSpecified`. -/
theorem C4_payload_data_type (env : Env) (now : Nat) (payload type : JsVal) :
    (payload.truthy = true → type.truthy = true →
      (payload.typeOf ≠ .object ∨ payload.isArray = true) →
      generateToken env now payload type = .error .ErrGenerateTokenPayloadInvalidDataType) ∧
    (payload.truthy = true → type.truthy = false →
      generateToken env now payload type = .error .ErrorGenerateTokenTypeNotSpecified) ∧
    (payload.truthy = false →
      generateToken env now payload type = .error .ErrGenerateTokenPayloadNotSpecified) :=
  ⟨generateToken_of_bad_payload env now payload type,
   generateToken_of_falsy_type env now payload type,
   generateToken_of_falsy_payload env now payload type⟩

/-- Witness of C4 amended: `[]` with `'accessToken'` (the unit test), `[]` with no
type, and the payload `0`. -/
theorem C4_payload_data_type_witness :
    generateToken testEnv 1000 (.arr []) (.str "accessToken") =
      .error .ErrGenerateTokenPayloadInvalidDataType ∧
    generateToken testEnv 1000 (.arr []) .undefined =
      .error .ErrorGenerateTokenTypeNotSpecified ∧
    generateToken testEnv 1000 (.num 0) (.str "accessToken") =
      .error .ErrGenerateTokenPayloadNotSpecified :=
  ⟨(C4_payload_data_type testEnv 1000 (.arr []) (.str "accessToken")).1 rfl rfl (Or.inr rfl),
   (C4_payload_data_type testEnv 1000 (.arr []) .undefined).2.1 rfl rfl,
   (C4_payload_data_type testEnv 1000 (.num 0) (.str "accessToken")).2.2 rfl⟩

/-- C5 as stated fails: the empty string is a string equal to neither
`'accessToken'` nor `'refreshToken'`, yet on a valid payload the error is
`ErrorGenerateTokenTypeNotSpecified`, not `ErrorGenerateTokenTypeInvalidValue`. -/
theorem C5_counterexample :
    generateToken testEnv 1000 testData (.str "") = .error .ErrorGenerateTokenTypeNotSpecified ∧
    generateToken testEnv 1000 testData (.str "") ≠
      .error .ErrorGenerateTokenTypeInvalidValue := by
  constructor
  · rfl
  · intro h
    have h2 : generateToken testEnv 1000 testData (.str "") =
        .error .ErrorGenerateTokenTypeNotSpecified := rfl
    rw [h2] at h
    cases h

/-- C5 amended: on a plain-object payload, a falsy `type` (absent, `null`, `''`,
`0`, `false`, `NaN`) gives `ErrorGenerateTokenTypeNotSpecified`, a truthy `type`
that is not a string gives `ErrorGenerateTokenTypeInvalidDataType`, and a non-empty
string other than `'accessToken'` and `'refreshToken'` gives
`ErrorGenerateTokenTypeInvalidValue`. -/
theorem C5_type_classification (env : Env) (now : Nat) (fs : List (String × JsVal))
    (type : JsVal) :
    (type.truthy = false →
      generateToken env now (.obj fs) type = .error .ErrorGenerateTokenTypeNotSpecified) ∧
    (type.truthy = true → type.typeOf ≠ .string →
      generateToken env now (.obj fs) type = .error .ErrorGenerateTokenTypeInvalidDataType) ∧
    (type.truthy = true → type.typeOf = .string →
      type ≠ .str "accessToken" → type ≠ .str "refreshToken" →
      generateToken env now (.obj fs) type = .error .ErrorGenerateTokenTypeInvalidValue) := by
  refine ⟨fun h => generateToken_of_falsy_type env now (.obj fs) type rfl h, ?_, ?_⟩
  · intro ht hty
    rw [generateToken_obj env now fs type ht]
    simp [hty]
  · intro ht hty ha hr
    rw [generateToken_obj env now fs type ht]
    cases type <;> simp_all [JsVal.typeOf, JsVal.strictEqStr]

/-- Witness of C5 amended: the unit tests (`undefined`, `10`, an unsupported
string) on `testData`. -/
theorem C5_type_classification_witness :
    generateToken testEnv 1000 testData .undefined =
      .error .ErrorGenerateTokenTypeNotSpecified ∧
    generateToken testEnv 1000 testData (.num 10) =
      .error .ErrorGenerateTokenTypeInvalidDataType ∧
    generateToken testEnv 1000 testData (.str "not_the_expected_input_string_value") =
      .error .ErrorGenerateTokenTypeInvalidValue :=
  ⟨(C5_type_classification testEnv 1000 _ .undefined).1 rfl,
   (C5_type_classification testEnv 1000 _ (.num 10)).2.1 rfl (by decide),
   (C5_type_classification testEnv 1000 _ (.str "not_the_expected_input_string_value")).2.2
     rfl rfl (by simp) (by simp)⟩

/-! ## Claim C6 -/

/-- Anything that is not a string makes `validator.isEmpty` raise, hence `null`. -/
theorem verifyToken_of_non_string (env : Env) (now : Nat) (token : JsVal)
    (h : token.typeOf ≠ .string) : verifyToken env now token = .ok .null := by
  cases token <;> simp_all [JsVal.typeOf, verifyToken, verifyTokenTry, validatorIsEmpty]

/-- A string that is not a signed token (empty or malformed) gives `null`. -/
theorem verifyToken_of_plain_string (env : Env) (now : Nat) (s : String) :
    verifyToken env now (.str s) = .ok .null := by
  by_cases h : s = ""
  · simp [verifyToken, verifyTokenTry, validatorIsEmpty, h]
  · simp [verifyToken, verifyTokenTry, validatorIsEmpty, h, JsVal.truthy, JsVal.strictEqStr,
      jwtVerify]

/-- A token signed with another key gives `null`. -/
theorem verifyToken_of_bad_signature (env : Env) (now : Nat) (secret : String)
    (payload : JsVal) (h : secret ≠ env.SECRET_TOKEN_KEY) :
    verifyToken env now (.jws secret payload) = .ok .null := by
  by_cases hk : env.SECRET_TOKEN_KEY = ""
  · simp [verifyToken, verifyTokenTry, validatorIsEmpty, JsVal.truthy, JsVal.strictEqStr,
      jwtVerify, hk]
  · simp [verifyToken, verifyTokenTry, validatorIsEmpty, JsVal.truthy, JsVal.strictEqStr,
      jwtVerify, hk, h]

/-- A token whose `exp` claim the clock has reached gives `null`. -/
theorem verifyToken_of_expired (env : Env) (now : Nat) (secret : String) (payload : JsVal)
    (e : Int) (hexp : claimOf payload "exp" = .num e) (hnow : e ≤ now) :
    verifyToken env now (.jws secret payload) = .ok .null := by
  have hjwt : ∃ err, jwtVerify now (.jws secret payload) env.SECRET_TOKEN_KEY = .error err := by
    simp only [jwtVerify, JsVal.truthy]
    by_cases hk : env.SECRET_TOKEN_KEY = ""
    · simp [hk]
    · by_cases hs : secret = env.SECRET_TOKEN_KEY
      · cases hn : checkNotBefore now (claimOf payload "nbf") with
        | error err => simp [hk, hs]
        | ok u => simp [hk, hs, hexp, checkExpiry, hnow]
      · simp [hk, hs]
  obtain ⟨err, herr⟩ := hjwt
  simp [verifyToken, verifyTokenTry, validatorIsEmpty, JsVal.truthy, JsVal.strictEqStr, herr]

/-- C6 as stated fails: a token signed with the configured key that carries no `exp`
claim (so it is not expired) but an `nbf` claim in the future is answered with
`null`, not with its decoded payload. -/
theorem C6_counterexample :
    verifyToken testEnv 1000 (.jws "secret" (.obj [("username", .str "u"), ("nbf", .num 2000)])) =
      .ok .null ∧
    verifyToken testEnv 1000 (.jws "secret" (.obj [("username", .str "u"), ("nbf", .num 2000)])) ≠
      .ok (.obj [("username", .str "u"), ("nbf", .num 2000)]) := by
  have h : verifyToken testEnv 1000
      (.jws "secret" (.obj [("username", .str "u"), ("nbf", .num 2000)])) = .ok .null := rfl
  refine ⟨h, ?_⟩
  rw [h]
  intro h2
  injection h2 with h3
  cases h3

/-- C6 amended: `verifyToken` never raises. It returns `null` for every input that
is not a string (`undefined`, `null`, numbers, ...), with a key configured for
every string that is not a signed token (the empty string, malformed strings), for
every token signed with another key and for every token whose `exp` the clock has
reached. For a token signed with the configured key (under HS256, HS384 or HS512)
whose payload is an object, whose `exp` claim is absent or a number after the clock
and whose `nbf` claim is absent or a number not after the clock, it returns the
decoded payload. -/
theorem C6_verifyToken_total (env : Env) (now : Nat) :
    (∀ token, ∃ v, verifyToken env now token = .ok v) ∧
    (∀ token, token.typeOf ≠ .string → verifyToken env now token = .ok .null) ∧
    (∀ s, env.SECRET_TOKEN_KEY ≠ "" → verifyToken env now (.str s) = .ok .null) ∧
    (∀ secret payload, secret ≠ env.SECRET_TOKEN_KEY →
      verifyToken env now (.jws secret payload) = .ok .null) ∧
    (∀ secret payload e, claimOf payload "exp" = .num e → e ≤ now →
      verifyToken env now (.jws secret payload) = .ok .null) ∧
    (∀ fs, env.SECRET_TOKEN_KEY ≠ "" →
      (getOwn fs "exp" = .undefined ∨ ∃ e : Int, getOwn fs "exp" = .num e ∧ (now : Int) < e) →
      (getOwn fs "nbf" = .undefined ∨ ∃ n : Int, getOwn fs "nbf" = .num n ∧ n ≤ (now : Int)) →
      verifyToken env now (.jws env.SECRET_TOKEN_KEY (.obj fs)) = .ok (.obj fs)) := by
  refine ⟨verifyToken_returns env now, verifyToken_of_non_string env now,
    fun s _ => verifyToken_of_plain_string env now s, verifyToken_of_bad_signature env now,
    verifyToken_of_expired env now, ?_⟩
  intro fs hkey hexp hnbf
  apply verifyToken_ok env now (.obj fs) hkey rfl
  · rcases hnbf with h | ⟨n, h, hn⟩
    · simp [claimOf, h, checkNotBefore]
    · simp [claimOf, h, checkNotBefore, hn]
  · rcases hexp with h | ⟨e, h, he⟩
    · simp [claimOf, h, checkExpiry]
    · simp [claimOf, h, checkExpiry, he]

/-- Witness of C6 amended: `undefined`, the empty string, a malformed string, a
token signed with another key, a token expired at second 500, and a valid token
with an expiry at second 2000, all at second 1000. -/
theorem C6_verifyToken_total_witness :
    verifyToken testEnv 1000 .undefined = .ok .null ∧
    verifyToken testEnv 1000 (.str "") = .ok .null ∧
    verifyToken testEnv 1000 (.str "not.a.token") = .ok .null ∧
    verifyToken testEnv 1000 (.jws "other" (.obj [("username", .str "u")])) = .ok .null ∧
    verifyToken testEnv 1000 (.jws "secret" (.obj [("username", .str "u"), ("exp", .num 500)])) =
      .ok .null ∧
    verifyToken testEnv 1000 (.jws "secret" (.obj [("username", .str "u"), ("exp", .num 2000)])) =
      .ok (.obj [("username", .str "u"), ("exp", .num 2000)]) :=
  ⟨(C6_verifyToken_total testEnv 1000).2.1 .undefined (by decide),
   (C6_verifyToken_total testEnv 1000).2.2.1 "" (by decide),
   (C6_verifyToken_total testEnv 1000).2.2.1 "not.a.token" (by decide),
   (C6_verifyToken_total testEnv 1000).2.2.2.1 "other" _ (by decide),
   (C6_verifyToken_total testEnv 1000).2.2.2.2.1 "secret" _ 500 rfl (by decide),
   (C6_verifyToken_total testEnv 1000).2.2.2.2.2 [("username", .str "u"), ("exp", .num 2000)]
     (by decide) (Or.inr ⟨2000, rfl, by decide⟩) (Or.inl rfl)⟩

/-! ## Claim C7 -/

/-- C7 as stated fails: the empty array is a non-null payload, yet
`generateNewTokensIfExpired([])` raises (the error of `generateToken` on an array)
and returns no pair. -/
theorem C7_counterexample :
    generateNewTokensIfExpired testEnv 1000 (.arr []) =
      .error .ErrGenerateTokenPayloadInvalidDataType ∧
    ¬ ∃ tokens, generateNewTokensIfExpired testEnv 1000 (.arr []) = .ok tokens := by
  have h : generateNewTokensIfExpired testEnv 1000 (.arr []) =
      .error .ErrGenerateTokenPayloadInvalidDataType := rfl
  refine ⟨h, ?_⟩
  rintro ⟨tokens, ht⟩
  rw [h] at ht
  cases ht

/-- C7 amended: `generateNewTokensIfExpired(payload)` raises
`ErrGenerateNewTokensIfExpiredPayloadNotSpecified` when `payload` is `undefined`,
`null` or any other falsy value; with a signing key configured, for every
plain-object payload that has no `exp` claim of its own and whose `iat` and `nbf`
claims, if any, are numbers, it does not raise and returns the pair made of the
tokens that `generateToken(payload, 'refreshToken')` and
`generateToken(payload, 'accessToken')` issue, both signed with the configured key. -/
theorem C7_renew_pair (env : Env) (now : Nat) :
    (∀ payload : JsVal, payload.truthy = false →
      generateNewTokensIfExpired env now payload =
        .error .ErrGenerateNewTokensIfExpiredPayloadNotSpecified) ∧
    (∀ fs : List (String × JsVal), env.SECRET_TOKEN_KEY ≠ "" → hasOwn fs "exp" = false →
      (∀ v, ("iat", v) ∈ fs → isNumber v = true) →
      (∀ v, ("nbf", v) ∈ fs → isNumber v = true) →
      ∃ refresh access,
        generateNewTokensIfExpired env now (.obj fs) =
          .ok { newRefreshToken := .jws env.SECRET_TOKEN_KEY refresh,
                newAccessToken := .jws env.SECRET_TOKEN_KEY access } ∧
        generateToken env now (.obj fs) (.str "refreshToken") =
          .ok (.jws env.SECRET_TOKEN_KEY refresh) ∧
        generateToken env now (.obj fs) (.str "accessToken") =
          .ok (.jws env.SECRET_TOKEN_KEY access)) := by
  constructor
  · intro payload h
    simp [generateNewTokensIfExpired, h]
  · intro fs hkey hexp hiat hnbf
    have hval := validatePayload_of_numeric fs hexp hiat hnbf
    have ha := generateToken_access_ok env now fs hkey hval hexp
    have hr := generateToken_refresh_ok env now fs hkey hval
    refine ⟨_, _, ?_, hr, ha⟩
    simp [generateNewTokensIfExpired, JsVal.truthy, JsVal.looseEqNull, ha, hr]

/-- Witness of C7 amended: `undefined` (the unit test) and `null` raise; the payload
`testData` yields a pair. -/
theorem C7_renew_pair_witness :
    generateNewTokensIfExpired testEnv 1000 .undefined =
      .error .ErrGenerateNewTokensIfExpiredPayloadNotSpecified ∧
    generateNewTokensIfExpired testEnv 1000 .null =
      .error .ErrGenerateNewTokensIfExpiredPayloadNotSpecified ∧
    ∃ refresh access,
      generateNewTokensIfExpired testEnv 1000 testData =
        .ok { newRefreshToken := .jws "secret" refresh,
              newAccessToken := .jws "secret" access } ∧
      generateToken testEnv 1000 testData (.str "refreshToken") =
        .ok (.jws "secret" refresh) ∧
      generateToken testEnv 1000 testData (.str "accessToken") =
        .ok (.jws "secret" access) :=
  ⟨(C7_renew_pair testEnv 1000).1 .undefined rfl,
   (C7_renew_pair testEnv 1000).1 .null rfl,
   (C7_renew_pair testEnv 1000).2 testData.ownFields (by decide) rfl
     (fun v hm => by simp [testData, JsVal.ownFields] at hm)
     (fun v hm => by simp [testData, JsVal.ownFields] at hm)⟩

/-! ## `extractUserFromToken` -/

theorem verifyToken_of_falsy (env : Env) (now : Nat) (token : JsVal)
    (h : token.truthy = false) : verifyToken env now token = .ok .null := by
  cases token with
  | str s =>
    exact verifyToken_of_plain_string env now s
  | jws secret payload => simp [JsVal.truthy] at h
  | _ => exact verifyToken_of_non_string env now _ (by simp [JsVal.typeOf])

/-- The `try` block raises exactly when the access token is rejected. -/
theorem accessTokenTry_error_iff (env : Env) (now : Nat) (a : JsVal) :
    (∃ e, accessTokenTry env now a = .error e) ↔ AccessRejected env now a := by
  constructor
  · rintro ⟨e, he⟩
    by_cases ht : a.truthy = true
    · have hs := truthy_not_strictEq_empty ht
      obtain ⟨p, hp⟩ := verifyToken_returns env now a
      simp only [accessTokenTry, ht, hs, hp] at he
      cases hg : p.getProp "username" with
      | error err =>
        have hnull : p = .null := by
          rcases verifyToken_null_or_truthy env now a p hp with h | h
          · exact h
          · cases p <;> simp_all [JsVal.getProp, JsVal.truthy]
        subst hnull
        exact Or.inr (Or.inr (Or.inl hp))
      | ok u =>
        refine Or.inr (Or.inr (Or.inr ⟨p, u, hp, hg, ?_⟩))
        by_cases hu : u.truthy = true
        · right
          by_contra hl
          simp [hg, hu, hl] at he
        · left
          simpa using hu
    · have hf : a.truthy = false := by simpa using ht
      exact Or.inr (Or.inr (Or.inl (verifyToken_of_falsy env now a hf)))
  · intro h
    by_cases ht : a.truthy = true
    · have hs := truthy_not_strictEq_empty ht
      rcases h with h | h | h | ⟨p, u, hp, hg, hu⟩
      · subst h; simp [JsVal.truthy] at ht
      · subst h; simp [JsVal.truthy] at ht
      · exact ⟨_, by simp [accessTokenTry, ht, hs, h, JsVal.getProp]; rfl⟩
      · rcases hu with hu | hu
        · exact ⟨_, by simp [accessTokenTry, ht, hs, hp, hg, hu]; rfl⟩
        · exact ⟨_, by simp [accessTokenTry, ht, hs, hp, hg, hu]; rfl⟩
    · have hf : a.truthy = false := by simpa using ht
      exact ⟨_, by simp [accessTokenTry, hf]; rfl⟩

/-- The `try` block succeeds on a token that verifies to a payload whose `username`
is a non-empty string. -/
theorem accessTokenTry_ok (env : Env) (now : Nat) (a p u : JsVal)
    (hv : verifyToken env now a = .ok p) (hu : p.getProp "username" = .ok u)
    (hstr : u.typeOf = .string) (hne : u ≠ .str "") :
    accessTokenTry env now a = .ok p := by
  have hut : u.truthy = true := by
    cases u <;> simp_all [JsVal.typeOf, JsVal.truthy]
  have hul : u.looseEqEmptyStr = false := by
    cases u <;> simp_all [JsVal.typeOf, JsVal.looseEqEmptyStr]
  have hat : a.truthy = true := by
    by_contra hf
    have hf2 : a.truthy = false := by simpa using hf
    rw [verifyToken_of_falsy env now a hf2] at hv
    injection hv with hv
    subst hv
    simp [JsVal.getProp] at hu
  simp [accessTokenTry, hat, truthy_not_strictEq_empty hat, hv, hu, hut, hul]

theorem indexOf_ge (xs : List String) (s : String) : -1 ≤ indexOf xs s := by
  induction xs with
  | nil => simp [indexOf]
  | cons x xs ih =>
    simp only [indexOf]
    split
    · omega
    · split <;> omega

theorem indexOf_eq_neg_one_iff (xs : List String) (s : String) :
    indexOf xs s = -1 ↔ s ∉ xs := by
  induction xs with
  | nil => simp [indexOf]
  | cons x xs ih =>
    have hge := indexOf_ge xs s
    simp only [indexOf]
    by_cases h : x = s
    · subst h
      simp
    · have h2 : ¬ s = x := fun h3 => h h3.symm
      by_cases h3 : indexOf xs s = -1
      · simp [h, h2, h3, ih.mp h3]
      · have h4 : ¬ (indexOf xs s + 1 = -1) := by omega
        have h5 : s ∈ xs := by
          by_contra h6
          exact h3 (ih.mpr h6)
        simp [h, h3, h4, h5]

theorem indexOf_gt_iff (xs : List String) (s : String) :
    indexOf xs s > -1 ↔ s ∈ xs := by
  have h1 := indexOf_ge xs s
  have h2 := indexOf_eq_neg_one_iff xs s
  constructor
  · intro h
    by_contra h3
    have := h2.mpr h3
    omega
  · intro h
    by_contra h3
    have h4 : indexOf xs s = -1 := by omega
    exact (h2.mp h4) h

/-- On an allow-listed url the `catch` block only calls `next`. -/
theorem refreshTokenCatch_allow_listed (env : Env) (now : Nat) (x : Exchange) (r : JsVal)
    (hurl : x.req.originalUrl ∈ unAuthenticatedUrls) :
    refreshTokenCatch env now x r = .ok x.next := by
  have h := (indexOf_gt_iff unAuthenticatedUrls x.req.originalUrl).mpr hurl
  simp only [refreshTokenCatch, h, if_true]

/-- Off the allow-list, a falsy refresh token is answered with 401. -/
theorem refreshTokenCatch_no_refresh (env : Env) (now : Nat) (x : Exchange) (r : JsVal)
    (hurl : x.req.originalUrl ∉ unAuthenticatedUrls) (hr : r.truthy = false) :
    refreshTokenCatch env now x r =
      .ok ((x.setUser .null).respond STATUS_UNAUTHORIZED
        (.obj [("error", .str "ERROR: Refresh token not found")])) := by
  have h : ¬ indexOf unAuthenticatedUrls x.req.originalUrl > -1 :=
    fun h => hurl ((indexOf_gt_iff _ _).mp h)
  simp [refreshTokenCatch, h, hr]

/-- Off the allow-list, a truthy refresh token that fails verification is answered
with 401. -/
theorem refreshTokenCatch_invalid_refresh (env : Env) (now : Nat) (x : Exchange) (r : JsVal)
    (hurl : x.req.originalUrl ∉ unAuthenticatedUrls) (hr : r.truthy = true)
    (hv : verifyToken env now r = .ok .null) :
    refreshTokenCatch env now x r =
      .ok (x.respond STATUS_UNAUTHORIZED
        (.obj [("error", .str "ERROR: Invalid refresh token")])) := by
  have h : ¬ indexOf unAuthenticatedUrls x.req.originalUrl > -1 :=
    fun h => hurl ((indexOf_gt_iff _ _).mp h)
  have hn : JsVal.null.truthy = false := rfl
  simp [refreshTokenCatch, h, hr, truthy_not_strictEq_empty hr, hv, hn]

/-- Off the allow-list, with a refresh token that verifies, the `catch` block, if it
returns, leaves status and body of the response and calls `next`. -/
theorem refreshTokenCatch_renewal (env : Env) (now : Nat) (x y : Exchange) (r p : JsVal)
    (hurl : x.req.originalUrl ∉ unAuthenticatedUrls) (hr : r.truthy = true)
    (hv : verifyToken env now r = .ok p) (hp : p.truthy = true)
    (hy : refreshTokenCatch env now x r = .ok y) :
    y.res.statusCode = x.res.statusCode ∧ y.res.body = x.res.body ∧
      y.nextCalls = x.nextCalls + 1 := by
  have h : ¬ indexOf unAuthenticatedUrls x.req.originalUrl > -1 :=
    fun h => hurl ((indexOf_gt_iff _ _).mp h)
  simp only [refreshTokenCatch, h, if_false, hr, truthy_not_strictEq_empty hr, hv, hp,
    Bool.not_true, Bool.or_self, Bool.false_eq_true] at hy
  cases hg : generateNewTokensIfExpired env now p with
  | error e => simp [hg] at hy
  | ok tokens =>
    simp only [hg] at hy
    cases hid : p.getProp "_id" with
    | error e => simp [hid] at hy
    | ok id =>
      simp only [hid] at hy
      cases hup : User.updateOne x.store id [("newRefreshToken", tokens.newRefreshToken)] with
      | error e => simp [hup] at hy
      | ok store =>
        simp only [hup] at hy
        injection hy with hy
        subst hy
        simp [Exchange.next, Exchange.setUser, Exchange.setHeader]

/-- The middleware on a rejected access token is its `catch` block. -/
theorem extractUserFromToken_of_rejected (env : Env) (now : Nat) (x : Exchange)
    (h : AccessRejected env now (getOwn x.req.headers "x-access-token")) :
    extractUserFromToken env now x =
      refreshTokenCatch env now x (getOwn x.req.headers "x-refresh-token") := by
  obtain ⟨e, he⟩ := (accessTokenTry_error_iff env now _).mpr h
  simp [extractUserFromToken, he]

/-! ## Claim C8 and the exact allow-list -/

/-- C8: when the header `x-access-token` verifies to a payload whose `username` is
a non-empty string, the middleware returns with `req.user` set to exactly that
payload and `next` called once more; the response (status, body, headers, so also
`x-access-token` and `x-refresh-token`) and the user store are as before. Nothing
is assumed about the url or about the header `x-refresh-token`. -/
theorem C8_valid_access_token (env : Env) (now : Nat) (x : Exchange) (payload username : JsVal)
    (hverify : verifyToken env now (getOwn x.req.headers "x-access-token") = .ok payload)
    (hclaim : payload.getProp "username" = .ok username)
    (hstring : username.typeOf = .string) (hnonempty : username ≠ .str "") :
    extractUserFromToken env now x =
      .ok { req := { headers := x.req.headers, originalUrl := x.req.originalUrl,
                     user := some payload },
            res := x.res,
            nextCalls := x.nextCalls + 1,
            store := x.store } := by
  have h := accessTokenTry_ok env now _ payload username hverify hclaim hstring hnonempty
  simp [extractUserFromToken, h, Exchange.next, Exchange.setUser]

/-- Witness of C8: a request off the allow-list whose access token, signed with the
configured key, carries the username `u` and expires after the clock. -/
theorem C8_valid_access_token_witness :
    extractUserFromToken testEnv 1000
      (freshExchange "/api/v1/users"
        [("x-access-token",
          .jws "secret" (.obj [("username", .str "u"), ("iat", .num 900), ("exp", .num 5000)]))]) =
      .ok { req := { headers := [("x-access-token", .jws "secret"
                      (.obj [("username", .str "u"), ("iat", .num 900), ("exp", .num 5000)]))],
                     originalUrl := "/api/v1/users",
                     user := some
                      (.obj [("username", .str "u"), ("iat", .num 900), ("exp", .num 5000)]) },
            res := { statusCode := none, body := none, headers := [] },
            nextCalls := 1,
            store := { users := [], available := true } } :=
  C8_valid_access_token testEnv 1000
    (freshExchange "/api/v1/users"
      [("x-access-token",
        .jws "secret" (.obj [("username", .str "u"), ("iat", .num 900), ("exp", .num 5000)]))])
    (.obj [("username", .str "u"), ("iat", .num 900), ("exp", .num 5000)]) (.str "u")
    rfl rfl rfl (by simp)

/-- On a request whose `req.originalUrl` is, character for character, one of the
allow-listed `/healthcheck`, `/api/v1/users/authenticate`,
`/api/v1/system/seed-data` and whose access token is absent, empty or invalid, the
middleware returns with `next` called once more and nothing else changed:
`req.user` is not assigned, no status or body is sent (no 401), no response header
is set (no rotation), the user store is as before. Nothing is assumed about the
header `x-refresh-token`. -/
theorem allow_listed_bypass (env : Env) (now : Nat) (x : Exchange)
    (hurl : x.req.originalUrl ∈ unAuthenticatedUrls)
    (haccess : AccessRejected env now (getOwn x.req.headers "x-access-token")) :
    extractUserFromToken env now x =
      .ok { req := x.req, res := x.res, nextCalls := x.nextCalls + 1, store := x.store } := by
  rw [extractUserFromToken_of_rejected env now x haccess,
    refreshTokenCatch_allow_listed env now x _ hurl]
  rfl

/-- The request `/healthcheck` with no credentials at all is passed on. -/
theorem allow_listed_bypass_example :
    extractUserFromToken testEnv 1000 (freshExchange "/healthcheck" []) =
      .ok { req := { headers := [], originalUrl := "/healthcheck", user := none },
            res := { statusCode := none, body := none, headers := [] },
            nextCalls := 1,
            store := { users := [], available := true } } :=
  allow_listed_bypass testEnv 1000 (freshExchange "/healthcheck" [])
    (by simp [freshExchange, unAuthenticatedUrls]) (Or.inl rfl)

/-- On a request whose `req.originalUrl` is not, character for character, one of
the allow-listed strings and whose access token is absent, empty or
invalid: (1) when the header `x-refresh-token` is absent or empty, the middleware
answers 401 with the error `ERROR: Refresh token not found` (and sets `req.user` to
`null`); (2) when that header is a non-empty string that fails verification, it
answers 401 with the error `ERROR: Invalid refresh token`; in both cases `next` is
not called; (3) whenever the middleware returns having set the status 401, the
request is of one of these two kinds. -/
theorem unauthorized_responses (env : Env) (now : Nat) (x : Exchange) :
    (AccessRejected env now (getOwn x.req.headers "x-access-token") →
      x.req.originalUrl ∉ unAuthenticatedUrls →
      (getOwn x.req.headers "x-refresh-token" = .undefined ∨
        getOwn x.req.headers "x-refresh-token" = .str "") →
      extractUserFromToken env now x =
        .ok { req := { headers := x.req.headers, originalUrl := x.req.originalUrl,
                       user := some .null },
              res := { statusCode := some 401,
                       body := some (.obj [("error", .str "ERROR: Refresh token not found")]),
                       headers := x.res.headers },
              nextCalls := x.nextCalls,
              store := x.store }) ∧
    (AccessRejected env now (getOwn x.req.headers "x-access-token") →
      x.req.originalUrl ∉ unAuthenticatedUrls →
      (getOwn x.req.headers "x-refresh-token").typeOf = .string →
      getOwn x.req.headers "x-refresh-token" ≠ .str "" →
      verifyToken env now (getOwn x.req.headers "x-refresh-token") = .ok .null →
      extractUserFromToken env now x =
        .ok { req := x.req,
              res := { statusCode := some 401,
                       body := some (.obj [("error", .str "ERROR: Invalid refresh token")]),
                       headers := x.res.headers },
              nextCalls := x.nextCalls,
              store := x.store }) ∧
    (∀ y, extractUserFromToken env now x = .ok y →
      x.res.statusCode ≠ some 401 → y.res.statusCode = some 401 →
      AccessRejected env now (getOwn x.req.headers "x-access-token") ∧
      x.req.originalUrl ∉ unAuthenticatedUrls ∧
      y.nextCalls = x.nextCalls ∧
      (((getOwn x.req.headers "x-refresh-token").truthy = false ∧
          y.res.body = some (.obj [("error", .str "ERROR: Refresh token not found")])) ∨
        ((getOwn x.req.headers "x-refresh-token").truthy = true ∧
          verifyToken env now (getOwn x.req.headers "x-refresh-token") = .ok .null ∧
          y.res.body = some (.obj [("error", .str "ERROR: Invalid refresh token")])))) := by
  refine ⟨?_, ?_, ?_⟩
  · intro hacc hurl hr
    have hf : (getOwn x.req.headers "x-refresh-token").truthy = false := by
      rcases hr with h | h <;> rw [h] <;> rfl
    rw [extractUserFromToken_of_rejected env now x hacc,
      refreshTokenCatch_no_refresh env now x _ hurl hf]
    rfl
  · intro hacc hurl hstr hne hv
    have ht : (getOwn x.req.headers "x-refresh-token").truthy = true := by
      cases h : getOwn x.req.headers "x-refresh-token" <;>
        simp_all [JsVal.typeOf, JsVal.truthy]
    rw [extractUserFromToken_of_rejected env now x hacc,
      refreshTokenCatch_invalid_refresh env now x _ hurl ht hv]
    rfl
  · intro y hy hx h401
    cases hacc : accessTokenTry env now (getOwn x.req.headers "x-access-token") with
    | ok p =>
      simp only [extractUserFromToken, hacc] at hy
      injection hy with hy
      subst hy
      exact absurd h401 hx
    | error e =>
      have hrej := (accessTokenTry_error_iff env now _).mp ⟨e, hacc⟩
      rw [extractUserFromToken_of_rejected env now x hrej] at hy
      by_cases hurl : x.req.originalUrl ∈ unAuthenticatedUrls
      · rw [refreshTokenCatch_allow_listed env now x _ hurl] at hy
        injection hy with hy
        subst hy
        exact absurd h401 hx
      · refine ⟨hrej, hurl, ?_⟩
        by_cases hr : (getOwn x.req.headers "x-refresh-token").truthy = true
        · obtain ⟨p, hp⟩ := verifyToken_returns env now (getOwn x.req.headers "x-refresh-token")
          rcases verifyToken_null_or_truthy env now _ p hp with hnull | htruthy
          · subst hnull
            rw [refreshTokenCatch_invalid_refresh env now x _ hurl hr hp] at hy
            injection hy with hy
            subst hy
            exact ⟨rfl, Or.inr ⟨hr, hp, rfl⟩⟩
          · have h := refreshTokenCatch_renewal env now x y _ p hurl hr hp htruthy hy
            rw [h.1] at h401
            exact absurd h401 hx
        · have hf : (getOwn x.req.headers "x-refresh-token").truthy = false := by
            simpa using hr
          rw [refreshTokenCatch_no_refresh env now x _ hurl hf] at hy
          injection hy with hy
          subst hy
          exact ⟨rfl, Or.inl ⟨hf, rfl⟩⟩

/-- A request to `/api/v1/users` with no credentials, the same request with a
malformed refresh token, and the converse at the first request. -/
theorem unauthorized_responses_example :
    extractUserFromToken testEnv 1000 (freshExchange "/api/v1/users" []) =
      .ok { req := { headers := [], originalUrl := "/api/v1/users", user := some .null },
            res := { statusCode := some 401,
                     body := some (.obj [("error", .str "ERROR: Refresh token not found")]),
                     headers := [] },
            nextCalls := 0,
            store := { users := [], available := true } } ∧
    extractUserFromToken testEnv 1000
        (freshExchange "/api/v1/users" [("x-refresh-token", .str "garbage")]) =
      .ok { req := { headers := [("x-refresh-token", .str "garbage")],
                     originalUrl := "/api/v1/users", user := none },
            res := { statusCode := some 401,
                     body := some (.obj [("error", .str "ERROR: Invalid refresh token")]),
                     headers := [] },
            nextCalls := 0,
            store := { users := [], available := true } } ∧
    (AccessRejected testEnv 1000 .undefined ∧
      "/api/v1/users" ∉ unAuthenticatedUrls ∧
      (0 : Nat) = 0 ∧
      ((JsVal.undefined.truthy = false ∧
          some (JsVal.obj [("error", .str "ERROR: Refresh token not found")]) =
            some (JsVal.obj [("error", .str "ERROR: Refresh token not found")])) ∨
        (JsVal.undefined.truthy = true ∧
          verifyToken testEnv 1000 .undefined = .ok .null ∧
          some (JsVal.obj [("error", .str "ERROR: Refresh token not found")]) =
            some (JsVal.obj [("error", .str "ERROR: Invalid refresh token")])))) :=
  ⟨(unauthorized_responses testEnv 1000 (freshExchange "/api/v1/users" [])).1
      (Or.inl rfl) (by simp [freshExchange, unAuthenticatedUrls]) (Or.inl rfl),
   (unauthorized_responses testEnv 1000
      (freshExchange "/api/v1/users" [("x-refresh-token", .str "garbage")])).2.1
      (Or.inl rfl) (by simp [freshExchange, unAuthenticatedUrls]) rfl (by simp [freshExchange, JsVal.getOwn])
      (verifyToken_of_plain_string testEnv 1000 "garbage"),
   (unauthorized_responses testEnv 1000 (freshExchange "/api/v1/users" [])).2.2
      { req := { headers := [], originalUrl := "/api/v1/users", user := some .null },
        res := { statusCode := some 401,
                 body := some (.obj [("error", .str "ERROR: Refresh token not found")]),
                 headers := [] },
        nextCalls := 0,
        store := { users := [], available := true } }
      rfl (by simp [freshExchange]) rfl⟩

/-! ## Renewal: what the re-issued tokens are -/

theorem hasOwn_of_getOwn_ne (fs : List (String × JsVal)) (key : String)
    (h : getOwn fs key ≠ .undefined) : hasOwn fs key = true := by
  by_contra hn
  have hf : hasOwn fs key = false := by simpa using hn
  exact h (getOwn_of_not_hasOwn fs key hf)

/-- Assigning to a key the value it already holds leaves the fields as they are. -/
theorem setOwn_eq_self (fs : List (String × JsVal)) (key : String) (v : JsVal)
    (hget : getOwn fs key = v) (hhas : hasOwn fs key = true) : setOwn fs key v = fs := by
  induction fs with
  | nil => simp [hasOwn] at hhas
  | cons f fs ih =>
    obtain ⟨k0, w⟩ := f
    by_cases h : k0 = key
    · subst h
      simp [getOwn] at hget
      simp [setOwn, hget]
    · simp [getOwn, h] at hget
      simp [hasOwn, h] at hhas
      simp [setOwn, h, ih hget hhas]

theorem mem_setOwn (fs : List (String × JsVal)) (key : String) (w : JsVal) (k : String)
    (v : JsVal) (h : (k, v) ∈ setOwn fs key w) : (k, v) ∈ fs ∨ (k = key ∧ v = w) := by
  induction fs with
  | nil =>
    simp [setOwn] at h
    exact Or.inr h
  | cons f fs ih =>
    obtain ⟨k0, w0⟩ := f
    by_cases h0 : k0 = key
    · subst h0
      simp only [setOwn, if_true] at h
      rcases List.mem_cons.mp h with heq | hmem
      · injection heq with h1 h2
        exact Or.inr ⟨h1, h2⟩
      · exact Or.inl (List.mem_cons_of_mem _ hmem)
    · simp only [setOwn, h0, if_false] at h
      rcases List.mem_cons.mp h with heq | hmem
      · exact Or.inl (by rw [heq]; exact List.mem_cons_self _ _)
      · rcases ih hmem with h1 | h1
        · exact Or.inl (List.mem_cons_of_mem _ h1)
        · exact Or.inr h1

theorem mem_jsonObj (fs : List (String × JsVal)) (k : String) (v : JsVal)
    (h : (k, v) ∈ jsonObj fs) : ∃ w, (k, w) ∈ fs ∧ v = w.json := by
  induction fs with
  | nil => simp [jsonObj] at h
  | cons f fs ih =>
    obtain ⟨k0, w0⟩ := f
    have hrec : (k, v) ∈ jsonObj fs → ∃ w, (k, w) ∈ (k0, w0) :: fs ∧ v = w.json := by
      intro hm
      obtain ⟨w, hw, hv⟩ := ih hm
      exact ⟨w, List.mem_cons_of_mem _ hw, hv⟩
    have hhead : (k, v) = (k0, w0.json) → ∃ w, (k, w) ∈ (k0, w0) :: fs ∧ v = w.json := by
      intro heq
      injection heq with h1 h2
      subst h1
      exact ⟨w0, List.mem_cons_self _ _, h2⟩
    cases w0 <;> simp only [jsonObj] at h <;>
      first
        | exact hrec h
        | (rcases List.mem_cons.mp h with heq | hm
           · exact hhead heq
           · exact hrec hm)

mutual
/-- The JSON round trip is idempotent. -/
theorem json_idem : ∀ (a : JsVal), (JsVal.json a).json = JsVal.json a
  | .undefined => by simp [JsVal.json]
  | .null => by simp [JsVal.json]
  | .bool a => by simp [JsVal.json]
  | .num a => by simp [JsVal.json]
  | .nan => by simp [JsVal.json]
  | .str a => by simp [JsVal.json]
  | .jws k p => by simp [JsVal.json]
  | .arr xs => by simp [JsVal.json, jsonArr_idem xs]
  | .obj fs => by simp [JsVal.json, jsonObj_idem fs]
theorem jsonArr_idem : ∀ (xs : List JsVal), jsonArr (jsonArr xs) = jsonArr xs
  | [] => by simp [JsVal.jsonArr]
  | x :: xs => by
    have h1 := json_idem x
    have h2 := jsonArr_idem xs
    cases x <;> simp_all [JsVal.jsonArr, JsVal.json]
theorem jsonObj_idem : ∀ (xs : List (String × JsVal)), jsonObj (jsonObj xs) = jsonObj xs
  | [] => by simp [JsVal.jsonObj]
  | (k, x) :: xs => by
    have h1 := json_idem x
    have h2 := jsonObj_idem xs
    cases x <;> simp_all [JsVal.jsonObj, JsVal.json]
end

/-- Re-issuing a refresh token from decoded claims that carry a non-zero `iat`
returns the token over these very claims: `jwt.sign` keeps the `iat` it finds. -/
theorem generateToken_refresh_reissue (env : Env) (now : Nat) (claims : List (String × JsVal))
    (ts : Int) (hkey : env.SECRET_TOKEN_KEY ≠ "") (hval : validatePayload claims = .ok ())
    (hiat : getOwn claims "iat" = .num ts) (hts : ts ≠ 0) (hjson : jsonObj claims = claims) :
    generateToken env now (.obj claims) (.str "refreshToken") =
      .ok (.jws env.SECRET_TOKEN_KEY (.obj claims)) := by
  rw [generateToken_refresh_ok env now claims hkey hval]
  have h1 : signTimestamp now claims = ts := by simp [signTimestamp, hiat, hts]
  have h2 : hasOwn claims "iat" = true := hasOwn_of_getOwn_ne claims "iat" (by rw [hiat]; simp)
  simp only [signedClaims, h1, setOwn_eq_self claims "iat" (.num ts) hiat h2, hjson]

/-- The claims of a refresh token issued from a payload without registered claims
pass the validation of `jwt.sign` again. -/
theorem validatePayload_refresh_claims (t0 : Nat) (fs : List (String × JsVal))
    (hexp : hasOwn fs "exp" = false) (hiat : hasOwn fs "iat" = false)
    (hnbf : hasOwn fs "nbf" = false) :
    validatePayload (jsonObj (signedClaims t0 fs none)) = .ok () := by
  apply validatePayload_ok
  intro k v hm hk
  obtain ⟨w, hw, hv⟩ := mem_jsonObj _ k v hm
  simp only [signedClaims] at hw
  rcases mem_setOwn fs "iat" _ k w hw with hfs | ⟨_, hw2⟩
  · rcases hk with hk | hk | hk
    · subst hk; exact absurd hfs (not_mem_of_not_hasOwn fs "iat" hiat w)
    · subst hk; exact absurd hfs (not_mem_of_not_hasOwn fs "exp" hexp w)
    · subst hk; exact absurd hfs (not_mem_of_not_hasOwn fs "nbf" hnbf w)
  · subst hw2
    subst hv
    rfl

/-- A refresh token issued by `generateToken` after second 0 from a payload without
registered claims verifies at any later time to claims from which `generateToken`
re-issues the very same token. -/
theorem refresh_token_reissued_identical (env : Env) (t0 now : Nat)
    (fs : List (String × JsVal)) (hkey : env.SECRET_TOKEN_KEY ≠ "") (ht0 : 0 < t0)
    (hexp : hasOwn fs "exp" = false) (hiat : hasOwn fs "iat" = false)
    (hnbf : hasOwn fs "nbf" = false) :
    generateToken env t0 (.obj fs) (.str "refreshToken") =
      .ok (.jws env.SECRET_TOKEN_KEY (.obj (jsonObj (signedClaims t0 fs none)))) ∧
    verifyToken env now (.jws env.SECRET_TOKEN_KEY (.obj (jsonObj (signedClaims t0 fs none)))) =
      .ok (.obj (jsonObj (signedClaims t0 fs none))) ∧
    generateToken env now (.obj (jsonObj (signedClaims t0 fs none))) (.str "refreshToken") =
      .ok (.jws env.SECRET_TOKEN_KEY (.obj (jsonObj (signedClaims t0 fs none)))) := by
  have hval : validatePayload fs = .ok () :=
    validatePayload_of_numeric fs hexp
      (fun v hm => absurd hm (not_mem_of_not_hasOwn fs "iat" hiat v))
      (fun v hm => absurd hm (not_mem_of_not_hasOwn fs "nbf" hnbf v))
  have hts : signTimestamp t0 fs = t0 := signTimestamp_of_no_iat t0 fs hiat
  have hget : getOwn (jsonObj (signedClaims t0 fs none)) "iat" = .num (t0 : Int) := by
    have h1 : getOwn (signedClaims t0 fs none) "iat" = .num (t0 : Int) := by
      simp [signedClaims, getOwn_setOwn_same, hts]
    rw [getOwn_jsonObj _ _ (by rw [h1]; simp), h1]
    simp [JsVal.json]
  have hnbf2 : hasOwn (jsonObj (signedClaims t0 fs none)) "nbf" = false :=
    hasOwn_jsonObj _ _ (by
      rw [hasOwn_signedClaims t0 fs none "nbf" (by decide) (by decide)]; exact hnbf)
  have hexp2 := hasOwn_signedClaims_none_exp t0 fs hexp
  refine ⟨generateToken_refresh_ok env t0 fs hkey hval, ?_, ?_⟩
  · apply verifyToken_ok env now (.obj (jsonObj (signedClaims t0 fs none))) hkey rfl
    · simp [claimOf, getOwn_of_not_hasOwn _ _ hnbf2, checkNotBefore]
    · simp [claimOf, getOwn_of_not_hasOwn _ _ hexp2, checkExpiry]
  · exact generateToken_refresh_reissue env now _ (t0 : Int) hkey
      (validatePayload_refresh_claims t0 fs hexp hiat hnbf) hget
      (by exact_mod_cast Nat.pos_iff_ne_zero.mp ht0) (jsonObj_idem _)

/-- On every renewal with a refresh token that `generateToken` issued (after second 0,
from a payload without registered claims and without `_id`), the middleware passes
the request on and the response header `x-refresh-token` is the submitted refresh
token itself. -/
theorem renewal_echoes_refresh_token (env : Env) (t0 now : Nat) (x : Exchange)
    (fs : List (String × JsVal)) (hkey : env.SECRET_TOKEN_KEY ≠ "") (ht0 : 0 < t0)
    (hexp : hasOwn fs "exp" = false) (hiat : hasOwn fs "iat" = false)
    (hnbf : hasOwn fs "nbf" = false) (hid : hasOwn fs "_id" = false)
    (hissued : generateToken env t0 (.obj fs) (.str "refreshToken") =
      .ok (getOwn x.req.headers "x-refresh-token"))
    (haccess : AccessRejected env now (getOwn x.req.headers "x-access-token"))
    (hurl : x.req.originalUrl ∉ unAuthenticatedUrls)
    (havail : x.store.available = true) :
    ∃ y, extractUserFromToken env now x = .ok y ∧
      getOwn y.res.headers "x-refresh-token" = getOwn x.req.headers "x-refresh-token" ∧
      y.nextCalls = x.nextCalls + 1 := by
  obtain ⟨h1, h2, h3⟩ := refresh_token_reissued_identical env t0 now fs hkey ht0 hexp hiat hnbf
  rw [h1] at hissued
  injection hissued with hissued
  have hexp2 := hasOwn_signedClaims_none_exp t0 fs hexp
  have hval2 := validatePayload_refresh_claims t0 fs hexp hiat hnbf
  have h4 := generateToken_access_ok env now _ hkey hval2 hexp2
  have hid2 : hasOwn (jsonObj (signedClaims t0 fs none)) "_id" = false :=
    hasOwn_jsonObj _ _ (by
      rw [hasOwn_signedClaims t0 fs none "_id" (by decide) (by decide)]; exact hid)
  have hnot : ¬ indexOf unAuthenticatedUrls x.req.originalUrl > -1 :=
    fun h => hurl ((indexOf_gt_iff _ _).mp h)
  have htr : (JsVal.jws env.SECRET_TOKEN_KEY
      (.obj (jsonObj (signedClaims t0 fs none)))).truthy = true := rfl
  have hse : (JsVal.jws env.SECRET_TOKEN_KEY
      (.obj (jsonObj (signedClaims t0 fs none)))).strictEqStr "" = false := rfl
  have hto : (JsVal.obj (jsonObj (signedClaims t0 fs none))).truthy = true := rfl
  have hln : (JsVal.obj (jsonObj (signedClaims t0 fs none))).looseEqNull = false := rfl
  rw [extractUserFromToken_of_rejected env now x haccess, ← hissued]
  refine ⟨(((((x.setHeader "Access-Control-Expose-Headers"
      (.str "x-access-token, x-refresh-token")).setHeader "x-access-token"
      (.jws env.SECRET_TOKEN_KEY (.obj (jsonObj (signedClaims now
        (jsonObj (signedClaims t0 fs none)) (some (60 * 60 * 9999))))))).setHeader
      "x-refresh-token"
      (.jws env.SECRET_TOKEN_KEY (.obj (jsonObj (signedClaims t0 fs none))))).setUser
      (.obj (jsonObj (signedClaims t0 fs none))))).next, ?_, ?_, ?_⟩
  · simp only [refreshTokenCatch, hnot, if_false, htr, hse, h2, hto, generateNewTokensIfExpired,
      hln, h3, h4, JsVal.getProp, getOwn_of_not_hasOwn _ _ hid2, User.updateOne, havail,
      castIdFilter, Bool.not_true, Bool.or_self, Bool.false_eq_true]
    rfl
  · simp [Exchange.next, Exchange.setUser, Exchange.setHeader, getOwn_setOwn_same]
  · simp [Exchange.next, Exchange.setUser, Exchange.setHeader]

/-! ## Renewal: what happens to the user store -/

/-- An update document whose only path is `newRefreshToken` changes no document. -/
theorem updateFirst_newRefreshToken (id : String) (v : JsVal) (docs : List UserDoc) :
    updateFirst id [("newRefreshToken", v)] docs = docs := by
  induction docs with
  | nil => rfl
  | cons doc docs ih =>
    by_cases h : doc.id = id
    · simp [updateFirst, h, UserDoc.applyUpdate, UserDoc.setPath]
    · simp [updateFirst, h, ih]

/-- The call `User.updateOne(filter, { newRefreshToken })` returns the store as it was. -/
theorem updateOne_newRefreshToken (store store1 : Store) (id v : JsVal)
    (h : User.updateOne store id [("newRefreshToken", v)] = .ok store1) : store1 = store := by
  unfold User.updateOne at h
  split at h
  · cases h
  · split at h
    · cases h
    · injection h with h
      exact h.symm
    · injection h with h
      rw [← h, updateFirst_newRefreshToken]

/-- Whenever the middleware returns, the user store is as it was before: no run of
`extractUserFromToken` writes a refresh token (or anything else) to a document. -/
theorem extractUserFromToken_store (env : Env) (now : Nat) (x y : Exchange)
    (h : extractUserFromToken env now x = .ok y) : y.store = x.store := by
  unfold extractUserFromToken at h
  cases hacc : accessTokenTry env now (getOwn x.req.headers "x-access-token") with
  | ok p =>
    simp only [hacc] at h
    injection h with h
    subst h
    rfl
  | error e =>
    simp only [hacc] at h
    unfold refreshTokenCatch at h
    simp only at h
    split at h
    · injection h with h
      subst h
      rfl
    · split at h
      · injection h with h
        subst h
        rfl
      · cases hv : verifyToken env now (getOwn x.req.headers "x-refresh-token") with
        | error e2 => simp [hv] at h
        | ok p =>
          simp only [hv] at h
          split at h
          · injection h with h
            subst h
            rfl
          · cases hg : generateNewTokensIfExpired env now p with
            | error e2 => simp [hg] at h
            | ok tokens =>
              simp only [hg] at h
              cases hid : p.getProp "_id" with
              | error e2 => simp [hid] at h
              | ok id =>
                simp only [hid] at h
                cases hup : User.updateOne x.store id
                    [("newRefreshToken", tokens.newRefreshToken)] with
                | error e2 => simp [hup] at h
                | ok store1 =>
                  simp only [hup] at h
                  injection h with h
                  subst h
                  exact updateOne_newRefreshToken x.store store1 id _ hup

/-! ## The login route and the body validation always answer -/

/-- The handler of `POST /authenticate` never raises. -/
theorem authenticateHandler_returns (env : Env) (now : Nat) (verifies : JsVal → JsVal → Bool)
    (body : JsVal) (x : Exchange) :
    ∃ y, authenticateHandler env now verifies body x = .ok y := by
  unfold authenticateHandler
  cases authenticateTry env now verifies body x with
  | ok y => exact ⟨y, rfl⟩
  | error e => exact ⟨_, rfl⟩

/-- The middleware `validateHTTPBody` never raises. -/
theorem validateHTTPBody_returns (schema : JoiSchema) (body : JsVal) (x : Exchange) :
    ∃ y, validateHTTPBody schema body x = .ok y := by
  unfold validateHTTPBody
  simp only
  split
  · exact ⟨_, rfl⟩
  · exact ⟨_, rfl⟩

/-! ## The login route: lemmas -/

mutual
theorem eqv_eq : ∀ (a b : JsVal), JsVal.eqv a b = true → a = b
  | .undefined, b, h => by cases b <;> simp_all [JsVal.eqv]
  | .null, b, h => by cases b <;> simp_all [JsVal.eqv]
  | .bool a, b, h => by cases b <;> simp_all [JsVal.eqv]
  | .num a, b, h => by cases b <;> simp_all [JsVal.eqv]
  | .nan, b, h => by cases b <;> simp_all [JsVal.eqv]
  | .str a, b, h => by cases b <;> simp_all [JsVal.eqv]
  | .jws k p, b, h => by
    cases b <;> simp_all [JsVal.eqv]
    exact eqv_eq p _ h.2
  | .arr xs, b, h => by
    cases b <;> simp_all [JsVal.eqv]
    exact eqvList_eq xs _ h
  | .obj fs, b, h => by
    cases b <;> simp_all [JsVal.eqv]
    exact eqvFields_eq fs _ h
theorem eqvList_eq : ∀ (xs ys : List JsVal), JsVal.eqvList xs ys = true → xs = ys
  | [], ys, h => by cases ys <;> simp_all [JsVal.eqvList]
  | x :: xs, ys, h => by
    cases ys with
    | nil => simp [JsVal.eqvList] at h
    | cons y ys =>
      simp [JsVal.eqvList] at h
      rw [eqv_eq x y h.1, eqvList_eq xs ys h.2]
theorem eqvFields_eq :
    ∀ (xs ys : List (String × JsVal)), JsVal.eqvFields xs ys = true → xs = ys
  | [], ys, h => by cases ys <;> simp_all [JsVal.eqvFields]
  | (k, x) :: xs, ys, h => by
    cases ys with
    | nil => simp [JsVal.eqvFields] at h
    | cons y ys =>
      obtain ⟨l, y⟩ := y
      simp [JsVal.eqvFields] at h
      rw [h.1.1, eqv_eq x y h.1.2, eqvFields_eq xs ys h.2]
end

mutual
theorem eqv_refl : ∀ (a : JsVal), JsVal.eqv a a = true
  | .undefined => by simp [JsVal.eqv]
  | .null => by simp [JsVal.eqv]
  | .bool a => by simp [JsVal.eqv]
  | .num a => by simp [JsVal.eqv]
  | .nan => by simp [JsVal.eqv]
  | .str a => by simp [JsVal.eqv]
  | .jws k p => by simp [JsVal.eqv, eqv_refl p]
  | .arr xs => by simp [JsVal.eqv, eqvList_refl xs]
  | .obj fs => by simp [JsVal.eqv, eqvFields_refl fs]
theorem eqvList_refl : ∀ (xs : List JsVal), JsVal.eqvList xs xs = true
  | [] => by simp [JsVal.eqvList]
  | x :: xs => by simp [JsVal.eqvList, eqv_refl x, eqvList_refl xs]
theorem eqvFields_refl : ∀ (xs : List (String × JsVal)), JsVal.eqvFields xs xs = true
  | [] => by simp [JsVal.eqvFields]
  | (k, x) :: xs => by simp [JsVal.eqvFields, eqv_refl x, eqvFields_refl xs]
end

/-- A value that passes `Joi.string().required()` is a non-empty string. -/
theorem joiRequiredString_none (key : String) (v : JsVal)
    (h : joiRequiredString key v = none) : v.typeOf = .string ∧ v.truthy = true := by
  cases v <;> simp_all [joiRequiredString, JsVal.typeOf, JsVal.truthy]

/-- A body object that passes the validation of the login route carries a non-empty
string `username` and a non-empty string `password`. -/
theorem valid_credentials (fs : List (String × JsVal))
    (h : validateObject authenticateSchema (.obj fs) = []) :
    ((getOwn fs "username").typeOf = .string ∧ (getOwn fs "username").truthy = true) ∧
    ((getOwn fs "password").typeOf = .string ∧ (getOwn fs "password").truthy = true) := by
  simp only [validateObject, authenticateSchema] at h
  cases hu : joiRequiredString "username" (getOwn fs "username") with
  | some m => simp [hu] at h
  | none =>
    cases hp : joiRequiredString "password" (getOwn fs "password") with
    | some m => simp [hu, hp] at h
    | none => exact ⟨joiRequiredString_none _ _ hu, joiRequiredString_none _ _ hp⟩

theorem castStringFilter_string (v : JsVal) (h : v.typeOf = .string) :
    castStringFilter v = .ok (some v) := by
  cases v <;> simp_all [JsVal.typeOf, castStringFilter]

/-- On a string, with a database that answers, `User.findOne({ username })` is the
search of the first document with that username. -/
theorem findOne_string (store : Store) (v : JsVal) (havail : store.available = true)
    (h : v.typeOf = .string) :
    User.findOne store v = .ok (store.users.find? (fun doc => doc.username.eqv v)) := by
  cases v <;> simp_all [JsVal.typeOf, castStringFilter, User.findOne]

theorem bcryptCompareSync_strings (verifies : JsVal → JsVal → Bool) (data hash : JsVal)
    (hd : data.typeOf = .string) (hh : hash.typeOf = .string) :
    bcryptCompareSync verifies data hash = .ok (verifies data hash) := by
  have h1 : data.looseEqNull = false := by cases data <;> simp_all [JsVal.typeOf, JsVal.looseEqNull]
  have h2 : hash.looseEqNull = false := by cases hash <;> simp_all [JsVal.typeOf, JsVal.looseEqNull]
  simp [bcryptCompareSync, h1, h2, hd, hh]

/-- The login handler's tokens: with a key configured, both are issued. -/
theorem generateToken_jwtData (env : Env) (now : Nat) (user : UserDoc)
    (hkey : env.SECRET_TOKEN_KEY ≠ "") :
    (∃ claims, generateToken env now (jwtDataOf user) (.str "accessToken") =
      .ok (.jws env.SECRET_TOKEN_KEY (.obj claims))) ∧
    (∃ claims, generateToken env now (jwtDataOf user) (.str "refreshToken") =
      .ok (.jws env.SECRET_TOKEN_KEY (.obj claims))) := by
  have hval : validatePayload [("userId", .str user.id), ("role", .undefined),
      ("username", user.username), ("firstname", user.firstname),
      ("lastname", user.lastname)] = .ok () := by
    simp [validatePayload]
  have hexp : hasOwn [("userId", JsVal.str user.id), ("role", .undefined),
      ("username", user.username), ("firstname", user.firstname),
      ("lastname", user.lastname)] "exp" = false := by
    simp [hasOwn]
  exact ⟨⟨_, generateToken_access_ok env now _ hkey hval hexp⟩,
    ⟨_, generateToken_refresh_ok env now _ hkey hval⟩⟩

/-- The document found by its username is in the collection and has that username. -/
theorem find?_username (docs : List UserDoc) (name : JsVal) (user : UserDoc)
    (h : docs.find? (fun doc => doc.username.eqv name) = some user) :
    user ∈ docs ∧ user.username = name := by
  induction docs with
  | nil => simp at h
  | cons d ds ih =>
    by_cases hd : d.username.eqv name = true
    · simp only [List.find?_cons, hd] at h
      injection h with h
      subst h
      exact ⟨List.mem_cons_self _ _, eqv_eq _ _ hd⟩
    · have hd2 : d.username.eqv name = false := by simpa using hd
      simp only [List.find?_cons, hd2] at h
      exact ⟨List.mem_cons_of_mem _ (ih h).1, (ih h).2⟩

/-- With unique ids, `updateFirst` on the id of a stored document replaces that
document by its update. -/
theorem mem_updateFirst (user : UserDoc) (update : List (String × JsVal))
    (docs : List UserDoc) (hmem : user ∈ docs) (hids : (docs.map UserDoc.id).Nodup) :
    user.applyUpdate update ∈ updateFirst user.id update docs := by
  induction docs with
  | nil => simp at hmem
  | cons d ds ih =>
    simp only [List.map_cons, List.nodup_cons] at hids
    by_cases h : d.id = user.id
    · have hd : user = d := by
        rcases List.mem_cons.mp hmem with h1 | h1
        · exact h1
        · exact absurd (List.mem_map.mpr ⟨user, h1, h.symm⟩) hids.1
      subst hd
      simp [updateFirst]
    · have h1 : user ∈ ds := by
        rcases List.mem_cons.mp hmem with h1 | h1
        · subst h1; exact absurd rfl h
        · exact h1
      simp only [updateFirst, h, if_false]
      exact List.mem_cons_of_mem _ (ih h1 hids.2)

/-! ## Claims C11, C12 -/

/-- C11, evaluated where it fails: the user `u` logs in at second 1000 and is issued
an access and a refresh token by `generateToken`; at second 40000000 the access
token has expired and both tokens are submitted to a url off the allow-list. The
middleware passes the request on, and the tokens it sets in the response headers
`x-access-token` and `x-refresh-token` are the two submitted tokens themselves (the
access token still the expired one): re-signing the decoded refresh payload keeps
its `iat`, so nothing is rotated. -/
theorem C11_renewal_returns_submitted_tokens :
    generateToken testEnv 1000 loginPayload (.str "accessToken") = .ok issuedAccessToken ∧
    generateToken testEnv 1000 loginPayload (.str "refreshToken") = .ok issuedRefreshToken ∧
    verifyToken testEnv 40000000 issuedAccessToken = .ok .null ∧
    extractUserFromToken testEnv 40000000
        (freshExchange "/api/v1/users"
          [("x-access-token", issuedAccessToken), ("x-refresh-token", issuedRefreshToken)]) =
      .ok { req := { headers := [("x-access-token", issuedAccessToken),
                                 ("x-refresh-token", issuedRefreshToken)],
                     originalUrl := "/api/v1/users",
                     user := some refreshClaims },
            res := { statusCode := none, body := none,
                     headers := [("Access-Control-Expose-Headers",
                                   .str "x-access-token, x-refresh-token"),
                                 ("x-access-token", issuedAccessToken),
                                 ("x-refresh-token", issuedRefreshToken)] },
            nextCalls := 1,
            store := { users := [], available := true } } :=
  ⟨rfl, rfl, rfl, rfl⟩

/-- C12, evaluated where it fails: the user `u` holds in the database the refresh
token of a later login and renews, at second 3000, with the refresh token of the
first login (whose payload carries the `userId` of that user). The middleware sends
back that refresh token in `x-refresh-token`, and the user document is as before:
its `refreshToken` is still the other token. -/
theorem C12_renewal_leaves_stored_refresh_token :
    extractUserFromToken testEnv 3000
        (exchangeWith "/api/v1/users" [("x-refresh-token", issuedRefreshToken)]
          { users := [userU], available := true }) =
      .ok { req := { headers := [("x-refresh-token", issuedRefreshToken)],
                     originalUrl := "/api/v1/users",
                     user := some refreshClaims },
            res := { statusCode := none, body := none,
                     headers := [("Access-Control-Expose-Headers",
                                   .str "x-access-token, x-refresh-token"),
                                 ("x-access-token", issuedAccessToken),
                                 ("x-refresh-token", issuedRefreshToken)] },
            nextCalls := 1,
            store := { users := [userU], available := true } } ∧
    getOwn refreshClaims.ownFields "userId" = .str userU.id ∧
    userU.refreshToken ≠ issuedRefreshToken := by
  refine ⟨rfl, rfl, ?_⟩
  simp [userU, laterRefreshToken, issuedRefreshToken, refreshClaims]

/-! ## Claim C13 -/

/-- C13: for the handler of `POST /users/authenticate`, with a signing key
configured, a database that answers and holds documents with unique usernames,
unique ids and string password hashes, and a body object that passes the validation
of the route: the handler answers; the status is 200 exactly when a user with the
given username exists whose stored hash the given password matches; in that case
the body carries `accessToken` and `refreshToken`, both non-empty strings, and the
document of that user with `refreshToken` set to the issued refresh token is in the
database; when no user has the username, and when the password does not match, the
status is 401, the body is `{ result }` without tokens, and the database is as
before. -/
theorem C13_authenticate (env : Env) (now : Nat) (verifies : JsVal → JsVal → Bool)
    (fs : List (String × JsVal)) (x : Exchange)
    (hkey : env.SECRET_TOKEN_KEY ≠ "") (havail : x.store.available = true)
    (hvalid : validateObject authenticateSchema (.obj fs) = [])
    (hpw : ∀ d ∈ x.store.users, d.password.typeOf = .string)
    (hnames : (x.store.users.map UserDoc.username).Nodup)
    (hids : (x.store.users.map UserDoc.id).Nodup) :
    ∃ y, authenticateHandler env now verifies (.obj fs) x = .ok y ∧
      (y.res.statusCode = some 200 ↔
        ∃ user ∈ x.store.users, user.username = getOwn fs "username" ∧
          verifies (getOwn fs "password") user.password = true) ∧
      (∀ user ∈ x.store.users, user.username = getOwn fs "username" →
        verifies (getOwn fs "password") user.password = true →
        ∃ accessToken refreshToken,
          y.res.body = some (.obj [("result", .str "ok"), ("accessToken", accessToken),
            ("refreshToken", refreshToken)]) ∧
          accessToken.typeOf = .string ∧ accessToken.truthy = true ∧
          refreshToken.typeOf = .string ∧ refreshToken.truthy = true ∧
          { user with refreshToken := refreshToken } ∈ y.store.users) ∧
      ((∀ user ∈ x.store.users, user.username ≠ getOwn fs "username") →
        y.res.statusCode = some 401 ∧
        y.res.body = some (.obj [("result", .str "ERROR: user does not exists")]) ∧
        y.store = x.store) ∧
      (∀ user ∈ x.store.users, user.username = getOwn fs "username" →
        verifies (getOwn fs "password") user.password = false →
        y.res.statusCode = some 401 ∧
        y.res.body = some (.obj [("result", .str "ERROR: failed to authenticate")]) ∧
        y.store = x.store) := by
  obtain ⟨⟨hus, _⟩, ⟨hps, _⟩⟩ := valid_credentials fs hvalid
  have hfo := findOne_string x.store _ havail hus
  cases hfind : x.store.users.find? (fun doc => doc.username.eqv (getOwn fs "username")) with
  | none =>
    have hnone : ∀ d ∈ x.store.users, d.username ≠ getOwn fs "username" := by
      intro d hd heq
      have h1 := List.find?_eq_none.mp hfind d hd
      rw [heq] at h1
      exact h1 (eqv_refl _)
    have hres : authenticateHandler env now verifies (.obj fs) x =
        .ok (x.respond STATUS_UNAUTHORIZED
          (.obj [("result", .str "ERROR: user does not exists")])) := by
      simp [authenticateHandler, authenticateTry, JsVal.getProp, hfo, hfind]
    refine ⟨_, hres, ?_, ?_, ?_, ?_⟩
    · constructor
      · intro h
        simp [Exchange.respond, STATUS_UNAUTHORIZED] at h
      · rintro ⟨user, hu, hname, _⟩
        exact absurd hname (hnone user hu)
    · intro user hu hname _
      exact absurd hname (hnone user hu)
    · intro _
      exact ⟨rfl, rfl, rfl⟩
    · intro user hu hname _
      exact absurd hname (hnone user hu)
  | some user0 =>
    have hm : user0 ∈ x.store.users := List.mem_of_find?_eq_some hfind
    have heq : user0.username = getOwn fs "username" :=
      (find?_username x.store.users _ user0 hfind).2
    have huniq : ∀ user ∈ x.store.users, user.username = getOwn fs "username" →
        user = user0 :=
      fun user hu h => List.inj_on_of_nodup_map hnames hu hm (h.trans heq.symm)
    have hb := bcryptCompareSync_strings verifies (getOwn fs "password") user0.password hps
      (hpw user0 hm)
    cases hv : verifies (getOwn fs "password") user0.password with
    | false =>
      have hres : authenticateHandler env now verifies (.obj fs) x =
          .ok (x.respond STATUS_UNAUTHORIZED
            (.obj [("result", .str "ERROR: failed to authenticate")])) := by
        simp [authenticateHandler, authenticateTry, JsVal.getProp, hfo, hfind, hb, hv]
      refine ⟨_, hres, ?_, ?_, ?_, ?_⟩
      · constructor
        · intro h
          simp [Exchange.respond, STATUS_UNAUTHORIZED] at h
        · rintro ⟨user, hu, hname, hver⟩
          rw [huniq user hu hname, hv] at hver
          cases hver
      · intro user hu hname hver
        rw [huniq user hu hname, hv] at hver
        cases hver
      · intro hno
        exact absurd heq (hno user0 hm)
      · intro _ _ _ _
        exact ⟨rfl, rfl, rfl⟩
    | true =>
      obtain ⟨⟨ca, ha⟩, ⟨cr, hr⟩⟩ := generateToken_jwtData env now user0 hkey
      have hres : authenticateHandler env now verifies (.obj fs) x =
          .ok (({ x with store := { x.store with
                  users := updateFirst user0.id
                    [("refreshToken", .jws env.SECRET_TOKEN_KEY (.obj cr))]
                    x.store.users } } : Exchange).respond STATUS_OK
            (.obj [("result", .str "ok"),
              ("accessToken", .jws env.SECRET_TOKEN_KEY (.obj ca)),
              ("refreshToken", .jws env.SECRET_TOKEN_KEY (.obj cr))])) := by
        simp [authenticateHandler, authenticateTry, JsVal.getProp, hfo, hfind, hb, hv, ha, hr,
          User.findOneAndUpdate, havail]
      refine ⟨_, hres, ?_, ?_, ?_, ?_⟩
      · constructor
        · intro _
          exact ⟨user0, hm, heq, hv⟩
        · intro _
          rfl
      · intro user hu hname _
        have hu0 := huniq user hu hname
        subst hu0
        refine ⟨_, _, rfl, rfl, rfl, rfl, rfl, ?_⟩
        have h1 := mem_updateFirst user
          [("refreshToken", .jws env.SECRET_TOKEN_KEY (.obj cr))] x.store.users hm hids
        simpa [UserDoc.applyUpdate, UserDoc.setPath, Exchange.respond] using h1
      · intro hno
        exact absurd heq (hno user0 hm)
      · intro user hu hname hver
        rw [huniq user hu hname, hv] at hver
        cases hver

/-- Witness of C13: the user `u` logs in with the right password at second 1000: the
status is 200 and the body carries both tokens. -/
theorem C13_authenticate_witness :
    ∃ y, authenticateHandler testEnv 1000 fixtureVerifies
        (.obj [("username", .str "u"), ("password", .str "pw")])
        (exchangeWith "/api/v1/users/authenticate" [] { users := [userU], available := true }) =
        .ok y ∧
      y.res.statusCode = some 200 ∧
      ∃ accessToken refreshToken,
        y.res.body = some (.obj [("result", .str "ok"), ("accessToken", accessToken),
          ("refreshToken", refreshToken)]) ∧
        { userU with refreshToken := refreshToken } ∈ y.store.users := by
  obtain ⟨y, h1, h2, h3, _, _⟩ := C13_authenticate testEnv 1000 fixtureVerifies
    [("username", .str "u"), ("password", .str "pw")]
    (exchangeWith "/api/v1/users/authenticate" [] { users := [userU], available := true })
    (by decide) rfl rfl
    (by intro d hd; simp [exchangeWith] at hd; subst hd; rfl)
    (by simp [exchangeWith])
    (by simp [exchangeWith])
  have hu : userU ∈ (exchangeWith "/api/v1/users/authenticate" []
      { users := [userU], available := true }).store.users := by simp [exchangeWith]
  obtain ⟨a, r, hb, _, _, _, _, hmem⟩ := h3 userU hu rfl rfl
  exact ⟨y, h1, h2.mpr ⟨userU, hu, rfl, rfl⟩, a, r, hb, hmem⟩

/-! ## Claim C14 -/

/-- C14, evaluated where it fails: (1) at second 3000 a request off the allow-list
with no access token and a valid refresh token, while the database does not answer:
the rejection of `User.updateOne` leaves the middleware as an exception; (2) a
request off the allow-list whose header `x-refresh-token` carries a valid access
token: `jwt.sign` raises inside `generateNewTokensIfExpired` and the exception
leaves the middleware. In both runs there is no response and no call of `next`. -/
theorem C14_middleware_raises :
    extractUserFromToken testEnv 3000
        (exchangeWith "/api/v1/users" [("x-refresh-token", issuedRefreshToken)]
          { users := [userU], available := false }) =
      .error .storeError ∧
    extractUserFromToken testEnv 3000
        (freshExchange "/api/v1/users" [("x-refresh-token", issuedAccessToken)]) =
      .error (.error
        "Bad \"options.expiresIn\" option the payload already has an \"exp\" property.") :=
  ⟨rfl, rfl⟩

/-! ## Claims C9, C10 -/

/-- C9, evaluated where it fails: the request `GET /healthcheck?probe=1` without any
credentials is a request to the allow-listed path `/healthcheck`, yet the middleware
answers 401 `ERROR: Refresh token not found` and does not call `next`: the allow-list
is searched for `req.originalUrl`, which carries the query string. -/
theorem C9_query_string_defeats_allow_list :
    pathOfUrl "/healthcheck?probe=1" = "/healthcheck" ∧
    "/healthcheck" ∈ unAuthenticatedUrls ∧
    extractUserFromToken testEnv 1000 (freshExchange "/healthcheck?probe=1" []) =
      .ok { req := { headers := [], originalUrl := "/healthcheck?probe=1",
                     user := some .null },
            res := { statusCode := some 401,
                     body := some (.obj [("error", .str "ERROR: Refresh token not found")]),
                     headers := [] },
            nextCalls := 0,
            store := { users := [], available := true } } := by
  refine ⟨rfl, ?_, rfl⟩
  simp [unAuthenticatedUrls]

/-- C10, evaluated where it fails: the requests
`POST /api/v1/users/authenticate?lang=en`, one without any credentials and one with
a malformed refresh token, are requests to the allow-listed path
`/api/v1/users/authenticate`, yet the middleware responds 401 to both (`ERROR:
Refresh token not found`, `ERROR: Invalid refresh token`) without calling `next`:
the status 401 is not confined to paths off the allow-list. -/
theorem C10_unauthorized_on_allow_listed_path :
    pathOfUrl "/api/v1/users/authenticate?lang=en" = "/api/v1/users/authenticate" ∧
    "/api/v1/users/authenticate" ∈ unAuthenticatedUrls ∧
    extractUserFromToken testEnv 1000
        (freshExchange "/api/v1/users/authenticate?lang=en" []) =
      .ok { req := { headers := [], originalUrl := "/api/v1/users/authenticate?lang=en",
                     user := some .null },
            res := { statusCode := some 401,
                     body := some (.obj [("error", .str "ERROR: Refresh token not found")]),
                     headers := [] },
            nextCalls := 0,
            store := { users := [], available := true } } ∧
    extractUserFromToken testEnv 1000
        (freshExchange "/api/v1/users/authenticate?lang=en"
          [("x-refresh-token", .str "garbage")]) =
      .ok { req := { headers := [("x-refresh-token", .str "garbage")],
                     originalUrl := "/api/v1/users/authenticate?lang=en", user := none },
            res := { statusCode := some 401,
                     body := some (.obj [("error", .str "ERROR: Invalid refresh token")]),
                     headers := [] },
            nextCalls := 0,
            store := { users := [], available := true } } := by
  refine ⟨rfl, ?_, rfl, rfl⟩
  simp [unAuthenticatedUrls]

end ExpressApiTemplate
